import Mathlib

/-!
# sqlx-2: the menu-driven PostgreSQL demonstration CLI (`src/main.go`)

A shallow embedding of `main.go`.  The Go program is imperative and talks to
three pieces of environment: the terminal (stdin / stdout), the log file and a
PostgreSQL server reached through `sqlx` / `database/sql`.  The embedding makes
all of it explicit in a `World` value that is threaded through the program:

* `World.server` is the state of the PostgreSQL server as far as the SQL
  statements of the program can observe it (schema `test6`, table `place`, its
  rows and its `serial` sequence);
* `World.faults` is the list of failures the driver will report on the next
  driver calls (`some e`: the call fails with error text `e`; `none` or an
  exhausted list: the call goes through);
* `World.trace` records every call made to the driver;
* `World.conns` counts the database handles that are open.

A Go function becomes a `Prog α`: a function from the world to either a normal
return or a halt of the process (`os.Exit`, or a panic that nobody recovers).
-/

namespace Sqlx

/-! ## The database server -/

/-- One row of `test6.place`: `id serial primary key, country text, city text,
telcode integer`.  The three data columns are nullable. -/
structure Row where
  id : Nat
  country : Option String
  city : Option String
  telcode : Option Int
  deriving DecidableEq

/-- The table `test6.place`: its rows in storage order and the next value of
the sequence behind the `serial` column. -/
structure Table where
  rows : List Row
  nextId : Nat
  deriving DecidableEq

/-- The server state: `schema = none` when schema `test6` does not exist,
`some none` when it exists without the table `place`, `some (some t)` when
the table exists with content `t`. -/
structure Database where
  schema : Option (Option Table)
  deriving DecidableEq

/-- The SQL statements that occur in `main.go`, with their bound arguments. -/
inductive Stmt where
  | createSchema
  | setSearchPath
  | createTable
  | insertCountryTelcode (country : String) (telcode : Int)
  | insertCountryCityTelcode (country : String) (city : String) (telcode : Int)
  | insertNamed (country : String) (city : String) (telcode : Int)
  | selectWhereTelcode (telcode : Int)
  | selectAll
  | selectCount
  | deleteAll
  deriving DecidableEq

/-- The statement text as it is written in `main.go`. -/
def Stmt.sql : Stmt → String
  | .createSchema => "CREATE SCHEMA IF NOT EXISTS test6;"
  | .setSearchPath => "SET search_path TO test6;"
  | .createTable =>
      "\n\t\tCREATE TABLE IF NOT EXISTS test6.place (\n\t\tid serial primary key,\n\t\tcountry text,\n\t\tcity text,\n\t\ttelcode integer)\n\t;"
  | .insertCountryTelcode _ _ => "INSERT INTO test6.place (country, telcode) VALUES ($1, $2);"
  | .insertCountryCityTelcode _ _ _ =>
      "INSERT INTO test6.place (country, city, telcode) VALUES ($1, $2, $3);"
  | .insertNamed _ _ _ =>
      "INSERT INTO test6.place (country, city, telcode) VALUES (:country, :city, :telcode)"
  | .selectWhereTelcode _ => "SELECT * FROM test6.place WHERE telcode = $1;"
  | .selectAll => "SELECT * FROM test6.place"
  | .selectCount => "SELECT COUNT (*) FROM test6.place;"
  | .deleteAll => "DELETE FROM test6.place;"

/-- What the server sends back for a statement. -/
inductive Reply where
  | done (rowsAffected : Nat)
  | rows (rs : List Row)
  | scalar (n : Int)
  deriving DecidableEq

/-- The rows of `test6.place`, when the table exists. -/
def Database.table (d : Database) : Option Table :=
  match d.schema with
  | some (some t) => some t
  | _ => none

def noSchema : String := "pq: schema \"test6\" does not exist"

def noRelation : String := "pq: relation \"test6.place\" does not exist"

/-- Insert one row: the `serial` column takes the next sequence value. -/
def Table.insert (t : Table) (country : Option String) (city : Option String)
    (telcode : Option Int) : Table :=
  { rows := t.rows ++ [{ id := t.nextId, country := country, city := city, telcode := telcode }],
    nextId := t.nextId + 1 }

/-- The behaviour of the PostgreSQL server on the statements of the program:
`IF NOT EXISTS` makes the two `CREATE` statements do nothing when the object
exists, a statement on a missing table fails, `INSERT` appends one row,
`DELETE` removes all rows and leaves the sequence alone. -/
def Database.run (d : Database) : Stmt → Except String (Database × Reply)
  | .createSchema =>
      match d.schema with
      | none => .ok ({ schema := some none }, .done 0)
      | some _ => .ok (d, .done 0)
  | .setSearchPath => .ok (d, .done 0)
  | .createTable =>
      match d.schema with
      | none => .error noSchema
      | some none => .ok ({ schema := some (some { rows := [], nextId := 1 }) }, .done 0)
      | some (some _) => .ok (d, .done 0)
  | .insertCountryTelcode country telcode =>
      match d.table with
      | none => .error noRelation
      | some t => .ok ({ schema := some (some (t.insert (some country) none (some telcode))) }, .done 1)
  | .insertCountryCityTelcode country city telcode =>
      match d.table with
      | none => .error noRelation
      | some t =>
          .ok ({ schema := some (some (t.insert (some country) (some city) (some telcode))) }, .done 1)
  | .insertNamed country city telcode =>
      match d.table with
      | none => .error noRelation
      | some t =>
          .ok ({ schema := some (some (t.insert (some country) (some city) (some telcode))) }, .done 1)
  | .selectWhereTelcode telcode =>
      match d.table with
      | none => .error noRelation
      | some t => .ok (d, .rows (t.rows.filter (fun r => decide (r.telcode = some telcode))))
  | .selectAll =>
      match d.table with
      | none => .error noRelation
      | some t => .ok (d, .rows t.rows)
  | .selectCount =>
      match d.table with
      | none => .error noRelation
      | some t => .ok (d, .scalar t.rows.length)
  | .deleteAll =>
      match d.table with
      | none => .error noRelation
      | some t => .ok ({ schema := some (some { rows := [], nextId := t.nextId }) }, .done t.rows.length)

/-! ## The process -/

/-- A call made to the database driver. -/
inductive Event where
  | connect (driver : String) (connStr : String)
  | ping
  | stmt (s : Stmt)
  | close
  deriving DecidableEq

/-- The global `db *sqlx.DB`: never assigned, an open handle, or a handle
that has been closed. -/
inductive Handle where
  | nil
  | opened
  | closed
  deriving DecidableEq

/-- A line typed on standard input: a decimal number, or anything else. -/
inductive Line where
  | num (v : Nat)
  | other
  deriving DecidableEq

/-- The process state together with its environment. -/
structure World where
  connStr : String
  db : Handle
  err : Option String
  choice : Nat
  server : Database
  conns : Nat
  faults : List (Option String)
  stdin : List Line
  stdout : String
  logFile : List String
  trace : List Event
  deriving DecidableEq

/-- How a process ends: `os.Exit code`, or a panic that reaches the top. -/
inductive Halt where
  | exit (code : Nat)
  | panic (msg : String)
  deriving DecidableEq

/-- The result of running a piece of the program. -/
inductive Res (α : Type) where
  | ok (a : α) (w : World)
  | halt (h : Halt) (w : World)
  deriving DecidableEq

/-- A piece of the program. -/
def Prog (α : Type) : Type := World → Res α

def Prog.pure {α : Type} (a : α) : Prog α := fun w => .ok a w

def Prog.bind {α β : Type} (m : Prog α) (f : α → Prog β) : Prog β := fun w =>
  match m w with
  | .ok a w1 => f a w1
  | .halt h w1 => .halt h w1

instance : Monad Prog where
  pure := Prog.pure
  bind := Prog.bind

/-- The `defer` statement of Go: the deferred call runs when the body returns and when it
panics, and does not run when the body ends the process with `os.Exit`. -/
def withDefer {α : Type} (deferred : Prog Unit) (body : Prog α) : Prog α := fun w =>
  match body w with
  | .ok a w1 =>
      match deferred w1 with
      | .ok _ w2 => .ok a w2
      | .halt h w2 => .halt h w2
  | .halt (.panic m) w1 =>
      match deferred w1 with
      | .ok _ w2 => .halt (.panic m) w2
      | .halt h w2 => .halt h w2
  | .halt (.exit c) w1 => .halt (.exit c) w1

/-! ### Runtime and library calls -/

def osExit {α : Type} (code : Nat) : Prog α := fun w => .halt (.exit code) w

def goPanic {α : Type} (msg : String) : Prog α := fun w => .halt (.panic msg) w

def fmtPrint (s : String) : Prog Unit := fun w => .ok () { w with stdout := w.stdout ++ s }

def fmtPrintln (s : String) : Prog Unit := fmtPrint (s ++ "\n")

/-- The call `fmt.Scanln()` without arguments: one line of input is consumed. -/
def fmtScanln : Prog Unit := fun w => .ok () { w with stdin := w.stdin.tail }

/-- The call `fmt.Scanln(&choice)` on a `uint8` that holds `old`: the value
read when the line is a number that fits, the old value otherwise. -/
def fmtScanlnUint8 (old : Nat) : Prog Nat := fun w =>
  match w.stdin with
  | [] => .ok old w
  | .num v :: rest => .ok (if v < 256 then v else old) { w with stdin := rest }
  | .other :: rest => .ok old { w with stdin := rest }

def logPrintln (msg : String) : Prog Unit := fun w =>
  .ok () { w with logFile := w.logFile ++ [msg] }

/-- The call `log.Fatal(msg)`: write the message, then `os.Exit(1)`. -/
def logFatal {α : Type} (msg : String) : Prog α := do
  logPrintln msg
  osExit 1

/-- The calls `screen.Clear()` and `screen.MoveTopLeft()` write escape codes. -/
def screenClear : Prog Unit := fmtPrint "\x1b[2J"

def screenMoveTopLeft : Prog Unit := fmtPrint "\x1b[H"

/-! ### The driver -/

def nilDeref : String := "runtime error: invalid memory address or nil pointer dereference"

def dbClosed : String := "sql: database is closed"

/-- The failure, if any, that the environment holds for the next driver call. -/
def pending : List (Option String) → Option String
  | [] => none
  | f :: _ => f

/-- The next driver call consults the environment: does it fail? -/
def nextFault : Prog (Option String) := fun w =>
  .ok (pending w.faults) { w with faults := w.faults.tail }

def record (e : Event) : Prog Unit := fun w => .ok () { w with trace := w.trace ++ [e] }

/-- The call `sqlx.Connect(driver, connStr)`, assigned to the global `db`:
on failure the handle is nil, on success a new handle is open. -/
def sqlxConnect (driver : String) (connStr : String) : Prog (Option String) := do
  record (.connect driver connStr)
  let f ← nextFault
  match f with
  | some e => fun w => .ok (some e) { w with db := .nil }
  | none => fun w => .ok none { w with db := .opened, conns := w.conns + 1 }

/-- A call on the global handle `db` that sends something to the server. -/
def onHandle {α : Type} (call : Prog (Except String α)) : Prog (Except String α) := fun w =>
  match w.db with
  | .nil => .halt (.panic nilDeref) w
  | .closed => .ok (.error dbClosed) w
  | .opened => call w

def dbPing : Prog (Option String) := do
  record .ping
  let r ← onHandle (do
    let f ← nextFault
    match f with
    | some e => pure (.error e)
    | none => pure (.ok ()))
  match r with
  | .error e => pure (some e)
  | .ok _ => pure none

/-- Send a statement: the driver may fail, otherwise the server runs it. -/
def send (s : Stmt) : Prog (Except String Reply) := do
  record (.stmt s)
  onHandle (do
    let f ← nextFault
    match f with
    | some e => pure (.error e)
    | none => fun w =>
        match w.server.run s with
        | .error e => .ok (.error e) w
        | .ok (d, r) => .ok (.ok r) { w with server := d })

/-- The call `db.Close()`; its error result is discarded by the program. -/
def dbClose : Prog Unit := do
  record .close
  fun w =>
    match w.db with
    | .nil => .halt (.panic nilDeref) w
    | .closed => .ok () w
    | .opened => .ok () { w with db := .closed, conns := w.conns - 1 }

/-- The value `sql.Result` of an executed statement. -/
structure Result where
  rowsAffected : Nat
  deriving DecidableEq

def Reply.result : Reply → Result
  | .done n => { rowsAffected := n }
  | _ => { rowsAffected := 0 }

/-- The call `db.Exec(stmt, args...)`. -/
def dbExec (s : Stmt) : Prog (Except String Result) := do
  let r ← send s
  match r with
  | .error e => pure (.error e)
  | .ok rep => pure (.ok rep.result)

/-- The call `db.MustExec(stmt, args...)`: panics on error. -/
def dbMustExec (s : Stmt) : Prog Result := do
  let r ← dbExec s
  match r with
  | .error e => goPanic e
  | .ok res => pure res

/-- The call `response.RowsAffected()`. -/
def Result.RowsAffected (r : Result) : Prog (Except String Nat) := do
  let f ← nextFault
  match f with
  | some e => pure (.error e)
  | none => pure (.ok r.rowsAffected)

/-- The type `sql.NullString`. -/
structure NullString where
  Str : String
  Valid : Bool
  deriving DecidableEq

/-- The struct `Place` that `queryRow` and `queryRows` scan into. -/
structure Place where
  Id : Int
  Country : String
  City : NullString
  TelephoneCode : Int
  deriving DecidableEq

def scanNull (column : String) (goType : String) : String :=
  "sql: Scan error on column \"" ++ column ++ "\": converting NULL to " ++ goType ++
    " is unsupported"

/-- Scanning a row into a `Place`: NULL fits `sql.NullString` only. -/
def structScan (r : Row) : Except String Place :=
  match r.country with
  | none => .error (scanNull "country" "string")
  | some country =>
      match r.telcode with
      | none => .error (scanNull "telcode" "int")
      | some telcode =>
          .ok { Id := r.id, Country := country,
                City := match r.city with
                  | none => { Str := "", Valid := false }
                  | some c => { Str := c, Valid := true },
                TelephoneCode := telcode }

def errNoRows : String := "sql: no rows in result set"

/-- The call `db.Get(&place, stmt, args...)`: the first row, scanned. -/
def dbGetPlace (s : Stmt) : Prog (Except String Place) := do
  let r ← send s
  match r with
  | .error e => pure (.error e)
  | .ok (.rows (row :: _)) => pure (structScan row)
  | .ok _ => pure (.error errNoRows)

/-- The call `db.Get(&n, stmt)` with `n` an `int`. -/
def dbGetInt (s : Stmt) : Prog (Except String Int) := do
  let r ← send s
  match r with
  | .error e => pure (.error e)
  | .ok (.scalar n) => pure (.ok n)
  | .ok _ => pure (.error errNoRows)

/-- The call `db.Queryx(stmt)`: the rows that are still to be fetched. -/
def dbQueryx (s : Stmt) : Prog (Except String (List Row)) := do
  let r ← send s
  match r with
  | .error e => pure (.error e)
  | .ok (.rows rs) => pure (.ok rs)
  | .ok _ => pure (.ok [])

/-- The call `rows.Next()`: `false` (here `none`) when the rows are exhausted
and also when fetching the next row fails; the failure would be reported by
`rows.Err()`. -/
def rowsNext (pending : List Row) : Prog (Option (Row × List Row)) := do
  let f ← nextFault
  match f with
  | some _ => pure none
  | none =>
      match pending with
      | [] => pure none
      | r :: rest => pure (some (r, rest))

/-! ## The program `main.go` -/

def pressAnyKey : String := "\nSuccess. Press any key to continue..."

def setErr (e : Option String) : Prog Unit := fun w => .ok () { w with err := e }

def setChoice (c : Nat) : Prog Unit := fun w => .ok () { w with choice := c }

def getConnStr : Prog String := fun w => .ok w.connStr w

/-- The function `connect`. -/
def connect : Prog Unit := do
  let connStr ← getConnStr
  let err ← sqlxConnect "postgres" connStr
  setErr err
  match err with
  | some e =>
      let msg := "Failed to connect to the database: " ++ e
      logPrintln msg
      goPanic msg
  | none => pure ()
  let err ← dbPing
  setErr err
  match err with
  | some e =>
      let msg := "Failed to ping the database: " ++ e
      logPrintln msg
      goPanic msg
  | none => pure ()

/-- The function `createSchema`. -/
def createSchema : Prog Unit := do
  connect
  withDefer dbClose do
    let r ← dbExec .createSchema
    match r with
    | .error e =>
        let msg := "func createSchema failed - " ++ e
        logFatal msg
    | .ok _ => pure ()
    fmtPrint pressAnyKey
    fmtScanln

/-- The function `selectSchema`. -/
def selectSchema : Prog Unit := do
  connect
  withDefer dbClose do
    let _ ← dbMustExec .setSearchPath
    pure ()

/-- The function `createTable`. -/
def createTable : Prog Unit := do
  connect
  withDefer dbClose do
    let r ← dbExec .createTable
    match r with
    | .error e =>
        let msg := "func createTable failed - " ++ e
        logFatal msg
    | .ok _ => pure ()
    fmtPrintln pressAnyKey
    fmtScanln

/-- The function `insertRow`. -/
def insertRow : Prog Unit := do
  connect
  withDefer dbClose do
    let r ← dbExec (.insertCountryTelcode "Hong Kong" 852)
    match r with
    | .error e =>
        let msg := "func insertRow failed (Hong Kong) - " ++ e
        logFatal msg
    | .ok _ => pure ()
    let _ ← dbMustExec (.insertCountryCityTelcode "Hungary" "Budapest" 36)
    let r ← dbExec (.insertCountryTelcode "Singapore" 65)
    match r with
    | .error e =>
        let msg := "func insertRow failed (Singapore) - " ++ e
        logFatal msg
    | .ok _ => pure ()
    let _ ← dbMustExec (.insertCountryCityTelcode "Ukraine" "Kiyv" 38)
    let r ← dbExec (.insertCountryCityTelcode "South Africa" "Johannesburg" 27)
    match r with
    | .error e =>
        let msg := "func insertRow failed (South Africa) - " ++ e
        logFatal msg
    | .ok _ => pure ()

/-- The struct `Place` local to `insertRowUsingStruct`. -/
structure InsertPlace where
  Country : String
  City : String
  TelephoneCode : Int
  deriving DecidableEq

/-- The call `db.NamedExec` on the statement
`INSERT INTO test6.place (country, city, telcode) VALUES (:country, :city, :telcode)`
with the named parameters bound from the struct. -/
def dbNamedExecInsert (p : InsertPlace) : Prog (Except String Result) :=
  dbExec (.insertNamed p.Country p.City p.TelephoneCode)

/-- The function `insertRowUsingStruct`. -/
def insertRowUsingStruct : Prog Unit := do
  connect
  withDefer dbClose do
    let p : InsertPlace := { Country := "Germany", City := "Berlin", TelephoneCode := 49 }
    let r ← dbNamedExecInsert p
    match r with
    | .error e =>
        let msg := "func insertRowUsingStruct failed (NamedExec)- " ++ e
        logFatal msg
    | .ok response =>
        let a ← response.RowsAffected
        match a with
        | .error e =>
            let msg := "func insertRowUsingStruct failed (RowsAffected)- " ++ e
            logFatal msg
        | .ok affectedRow =>
            logPrintln ("affectedRow: " ++ " " ++ toString affectedRow)

/-- The function `queryRow`. -/
def queryRow : Prog Unit := do
  connect
  withDefer dbClose do
    let r ← dbGetPlace (.selectWhereTelcode 852)
    match r with
    | .error e =>
        let msg := "func queryRow failed - " ++ e
        logFatal msg
    | .ok place =>
        fmtPrint place.Country
        fmtPrint ", "
        if place.City.Valid then do
          fmtPrint place.City.Str
          fmtPrint ", "
        else
          fmtPrint "N.A, "
        fmtPrintln (toString place.TelephoneCode)
        fmtPrintln pressAnyKey
        fmtScanln

/-- The loop `for rows.Next() { ... }` of `queryRows`. -/
def queryRowsLoop : List Row → Prog Unit
  | [] => do
      let _ ← rowsNext []
      pure ()
  | r :: rest => do
      let n ← rowsNext (r :: rest)
      match n with
      | none => pure ()
      | some _ =>
          match structScan r with
          | .error e =>
              let msg := "func query failed (rows.Next) - " ++ e
              logFatal msg
          | .ok p =>
              fmtPrint p.Country
              fmtPrint ", "
              if p.City.Valid then do
                fmtPrint p.City.Str
                fmtPrint ", "
              else
                fmtPrint "N.A, "
              fmtPrintln (toString p.TelephoneCode)
              queryRowsLoop rest

/-- The function `queryRows`. -/
def queryRows : Prog Unit := do
  connect
  withDefer dbClose do
    let r ← dbQueryx .selectAll
    match r with
    | .error e =>
        let msg := "func query failed - " ++ e
        logFatal msg
    | .ok rows =>
        queryRowsLoop rows
        fmtPrintln pressAnyKey
        fmtScanln

/-- The function `getNumOfRows`. -/
def getNumOfRows : Prog Unit := do
  connect
  withDefer dbClose do
    let r ← dbGetInt .selectCount
    match r with
    | .error e =>
        setErr (some e)
        let msg := "func getNumOfRows failed - " ++ e
        logFatal msg
    | .ok n =>
        setErr none
        fmtPrintln ("Num of rows in table: " ++ " " ++ toString n)
        fmtPrintln pressAnyKey
        fmtScanln

/-- The function `deleteAllRows`. -/
def deleteAllRows : Prog Unit := do
  connect
  withDefer dbClose do
    let _ ← dbMustExec .deleteAll
    pure ()

def menuText : String :=
  "\n\t10 connect\n\t11 create shema\n\t12 select schema\n\t13 create table\n\t14 insert row\n\t15 insert row using struct\n\t16 query row\n\t17 query rows\n\t18 get num of rows in table\n\t19 delete all rows\n\t20 quit\n\t"

/-- The function `menu`. -/
def menu : Prog Nat := do
  fmtPrintln menuText
  fmtPrint "Select 10..20: "
  let choice ← fmtScanlnUint8 0
  fmtPrintln ""
  pure choice

/-- The `switch choice` of `main`. -/
def dispatch (choice : Nat) : Prog Unit :=
  if choice = 10 then do
    connect
    dbClose
  else if choice = 11 then createSchema
  else if choice = 12 then selectSchema
  else if choice = 13 then createTable
  else if choice = 14 then insertRow
  else if choice = 15 then insertRowUsingStruct
  else if choice = 16 then queryRow
  else if choice = 17 then queryRows
  else if choice = 18 then getNumOfRows
  else if choice = 19 then deleteAllRows
  else do
    fmtPrintln "Bye"
    osExit 0

/-- One pass through the body of the `for` loop of `main`. -/
def loopBody : Prog Unit := do
  screenClear
  screenMoveTopLeft
  let c ← menu
  setChoice c
  dispatch c

/-- The command loop of `main`, run for at most `fuel` passes: how the process
ended and in which world, or `none` when it is still running. -/
def mainLoop : Nat → World → Option (Halt × World)
  | 0, _ => none
  | fuel + 1, w =>
      match loopBody w with
      | .ok _ w1 => mainLoop fuel w1
      | .halt h w1 => some (h, w1)

/-- A world at program start: nothing typed, printed or logged yet. -/
def World.start (connStr : String) (server : Database) (faults : List (Option String))
    (stdin : List Line) : World :=
  { connStr := connStr, db := .nil, err := none, choice := 0, server := server, conns := 0,
    faults := faults, stdin := stdin, stdout := "", logFile := [], trace := [] }

/-- A server on which `test6.place` exists and holds no row. -/
def emptyTable : Database := { schema := some (some { rows := [], nextId := 1 }) }

/-! ## Definitions used to state and prove the properties -/

/-- The first half of a pass through the loop of `main`: clear the screen,
show the menu and read the choice. -/
def prompt : Prog Nat := do
  screenClear
  screenMoveTopLeft
  let c ← menu
  setChoice c
  pure c

/-- Is the driver call a `sqlx.Connect`? -/
def Event.isConnect : Event → Bool
  | .connect _ _ => true
  | _ => false

/-- An operation that returned made exactly one `sqlx.Connect` call, with the
configured connection string, and its last driver call closed the handle. -/
def ReturnsClosed (w w1 : World) : Prop :=
  ∃ evs, w1.trace = w.trace ++ evs ∧
    evs.filter Event.isConnect = [.connect "postgres" w.connStr] ∧
    evs.getLast? = some .close ∧ evs.count .close = 1 ∧
    w1.conns = w.conns ∧ w1.db = .closed

/-- How an operation called `name` halted: a failure of `connect`, a failure
that the operation checks and reports itself, or (when `must` is set) a panic
of `MustExec`. -/
def AbortLogged (name : String) (must : Bool) (w : World) (h : Halt) (w1 : World) : Prop :=
  (∃ e, h = .panic ("Failed to connect to the database: " ++ e) ∧
      w1.logFile = w.logFile ++ ["Failed to connect to the database: " ++ e]) ∨
  (∃ e, h = .panic ("Failed to ping the database: " ++ e) ∧
      w1.logFile = w.logFile ++ ["Failed to ping the database: " ++ e]) ∨
  (h = .exit 1 ∧ ∃ rest, w1.logFile = w.logFile ++ ["func " ++ name ++ " failed" ++ rest]) ∨
  (must = true ∧ ∃ e, h = .panic e ∧ w1.logFile = w.logFile)

/-- The answers of the environment to the next `n` driver calls. -/
def consulted : Nat → List (Option String) → List (Option String)
  | 0, _ => []
  | n + 1, fs => pending fs :: consulted n fs.tail

/-- What an operation called `name` has done when it ends, either way; when it
returns, none of its first `calls` driver calls has failed. -/
def Summary (name : String) (must : Bool) (calls : Nat) (w : World) : Res Unit → Prop
  | .ok _ w1 => ReturnsClosed w w1 ∧ consulted calls w.faults = List.replicate calls none
  | .halt h w1 => AbortLogged name must w h w1

/-- The number of driver calls that an operation makes before it returns,
the calls of `rows.Next()` in `queryRows` apart: `sqlx.Connect`, `Ping`, every
statement, and `RowsAffected`. -/
def driverCalls (c : Nat) : Nat :=
  if c = 10 then 2 else if c = 14 then 7 else if c = 15 then 4 else 3

/-- The world after a successful `connect`. -/
def connected (w : World) : World :=
  { w with db := .opened, err := none, conns := w.conns + 1, faults := w.faults.tail.tail,
           trace := w.trace ++ [.connect "postgres" w.connStr, .ping] }

/-- The world after a statement has been handed to the driver. -/
def sent (s : Stmt) (w : World) : World :=
  { w with faults := w.faults.tail, trace := w.trace ++ [.stmt s] }

/-- The line that the claim gives for a fetched row `(country, city, telcode)`. -/
def specLine (country : String) (city : Option String) (telcode : Int) : String :=
  match city with
  | none => country ++ ", N.A, " ++ toString telcode
  | some c => country ++ ", " ++ c ++ ", " ++ toString telcode

/-- The city of a scanned row: absent when the `NullString` is not valid. -/
def Place.city (p : Place) : Option String :=
  if p.City.Valid then some p.City.Str else none

/-- The text printed for one fetched row, newline included. -/
def placeLine (p : Place) : String :=
  specLine p.Country p.city p.TelephoneCode ++ "\n"

/-- The lines, one after the other. -/
def concatLines : List String → String
  | [] => ""
  | s :: rest => s ++ concatLines rest

/-- What the row loop leaves behind: when it ends normally it has printed the
lines of a leading part of the rows and touched nothing else but the pending
failures; when it halts, a scan failed and was logged. -/
def LoopPost (rows : List Row) (w : World) : Res Unit → Prop
  | .ok _ w1 =>
      w1.trace = w.trace ∧ w1.conns = w.conns ∧ w1.db = w.db ∧ w1.server = w.server ∧
      w1.logFile = w.logFile ∧ w1.stdin = w.stdin ∧ w1.connStr = w.connStr ∧
      w1.err = w.err ∧ w1.choice = w.choice ∧
      ∃ ps : List Place, ps.map Except.ok <+: rows.map structScan ∧
        w1.stdout = w.stdout ++ concatLines (ps.map placeLine)
  | .halt h w1 =>
      h = .exit 1 ∧ ∃ e, w1.logFile = w.logFile ++ ["func query failed (rows.Next) - " ++ e]

/-- No failure is pending: the environment lets every driver call through. -/
def Quiet (fs : List (Option String)) : Prop := ∀ f ∈ fs, f = none

/-- The world in which a piece of the program ended. -/
def Res.world {α : Type} : Res α → World
  | .ok _ w => w
  | .halt _ w => w

/-- The name of the Go function behind a menu code. -/
def opName (c : Nat) : String :=
  if c = 10 then "connect"
  else if c = 11 then "createSchema"
  else if c = 12 then "selectSchema"
  else if c = 13 then "createTable"
  else if c = 14 then "insertRow"
  else if c = 15 then "insertRowUsingStruct"
  else if c = 16 then "queryRow"
  else if c = 17 then "queryRows"
  else if c = 18 then "getNumOfRows"
  else if c = 19 then "deleteAllRows"
  else ""

/-- The operations that send a statement with `MustExec`. -/
def usesMustExec (c : Nat) : Bool := c = 12 || c = 14 || c = 19

/-- The entries of the menu text: code and label. -/
def menuEntries : List (Nat × String) :=
  [(10, "connect"), (11, "create shema"), (12, "select schema"), (13, "create table"),
   (14, "insert row"), (15, "insert row using struct"), (16, "query row"), (17, "query rows"),
   (18, "get num of rows in table"), (19, "delete all rows"), (20, "quit")]

/-- The menu text made of its entries: one line per entry, behind a tab. -/
def renderMenu (entries : List (Nat × String)) : String :=
  "\n" ++ concatLines (entries.map fun e => "\t" ++ toString e.1 ++ " " ++ e.2 ++ "\n") ++ "\t"

/-- The operation that a menu label stands for, as the claim lists them. -/
def labelledOperation (label : String) : Option (Prog Unit) :=
  if label = "connect" then some (do connect; dbClose)
  else if label = "create shema" then some createSchema
  else if label = "select schema" then some selectSchema
  else if label = "create table" then some createTable
  else if label = "insert row" then some insertRow
  else if label = "insert row using struct" then some insertRowUsingStruct
  else if label = "query row" then some queryRow
  else if label = "query rows" then some queryRows
  else if label = "get num of rows in table" then some getNumOfRows
  else if label = "delete all rows" then some deleteAllRows
  else none

/-- The worlds at the head of each pass through the loop of `main`, for at
most `fuel` passes: these are the worlds in which the menu is shown. -/
def promptWorlds : Nat → World → List World
  | 0, _ => []
  | fuel + 1, w =>
      w :: match loopBody w with
        | .ok _ w1 => promptWorlds fuel w1
        | .halt _ _ => []

/-- A world in which the ten operations can be told apart by their driver calls. -/
def probe : World := World.start "" emptyTable [none, none, some "x"] []

/-- The menu code that the third driver call of an operation gives away. -/
def codeOfTrace : List Event → Nat
  | _ :: _ :: .close :: _ => 10
  | _ :: _ :: .stmt .createSchema :: _ => 11
  | _ :: _ :: .stmt .setSearchPath :: _ => 12
  | _ :: _ :: .stmt .createTable :: _ => 13
  | _ :: _ :: .stmt (.insertCountryTelcode _ _) :: _ => 14
  | _ :: _ :: .stmt (.insertNamed _ _ _) :: _ => 15
  | _ :: _ :: .stmt (.selectWhereTelcode _) :: _ => 16
  | _ :: _ :: .stmt .selectAll :: _ => 17
  | _ :: _ :: .stmt .selectCount :: _ => 18
  | _ :: _ :: .stmt .deleteAll :: _ => 19
  | _ => 0

/-- A server whose table holds the one row that `insertRow` inserts first. -/
def hongKong : Database :=
  { schema := some (some
      { rows := [{ id := 1, country := some "Hong Kong", city := none, telcode := some 852 }],
        nextId := 2 }) }

/-- The five rows that one call of `insertRow` adds to an empty table. -/
def fiveRows : Database :=
  { schema := some (some
      { rows :=
          [{ id := 1, country := some "Hong Kong", city := none, telcode := some 852 },
           { id := 2, country := some "Hungary", city := some "Budapest", telcode := some 36 },
           { id := 3, country := some "Singapore", city := none, telcode := some 65 },
           { id := 4, country := some "Ukraine", city := some "Kiyv", telcode := some 38 },
           { id := 5, country := some "South Africa", city := some "Johannesburg",
             telcode := some 27 }],
        nextId := 6 }) }

/-- The line, newline included, that the claim gives for a row of the table;
a row whose country or telcode is NULL cannot be fetched into a `Place`. -/
def rowLine (r : Row) : Option String :=
  match r.country, r.telcode with
  | some country, some telcode => some (specLine country r.city telcode ++ "\n")
  | _, _ => none

/-- The statements that the operation behind a menu code sends, in the order
of `main.go`, each with the way the code treats its failure: `some pre` when
the code checks the error of `Exec`, `NamedExec`, `Get` or `Queryx` itself and
hands `pre ++ error` to `log.Fatal`, `none` when the statement is sent with
`MustExec`. -/
def statements (c : Nat) : List (Stmt × Option String) :=
  if c = 11 then [(.createSchema, some "func createSchema failed - ")]
  else if c = 12 then [(.setSearchPath, none)]
  else if c = 13 then [(.createTable, some "func createTable failed - ")]
  else if c = 14 then
    [(.insertCountryTelcode "Hong Kong" 852, some "func insertRow failed (Hong Kong) - "),
     (.insertCountryCityTelcode "Hungary" "Budapest" 36, none),
     (.insertCountryTelcode "Singapore" 65, some "func insertRow failed (Singapore) - "),
     (.insertCountryCityTelcode "Ukraine" "Kiyv" 38, none),
     (.insertCountryCityTelcode "South Africa" "Johannesburg" 27,
       some "func insertRow failed (South Africa) - ")]
  else if c = 15 then
    [(.insertNamed "Germany" "Berlin" 49, some "func insertRowUsingStruct failed (NamedExec)- ")]
  else if c = 16 then [(.selectWhereTelcode 852, some "func queryRow failed - ")]
  else if c = 17 then [(.selectAll, some "func query failed - ")]
  else if c = 18 then [(.selectCount, some "func getNumOfRows failed - ")]
  else if c = 19 then [(.deleteAll, none)]
  else []

/-- The first statement of a list that fails, with the way its failure is
treated and the error: a statement fails when the driver fails the call, or
else when the server rejects the statement; the statements before it have
changed the server. -/
def firstFailure : List (Stmt × Option String) → List (Option String) → Database →
    Option (Option String × String)
  | [], _, _ => none
  | (s, how) :: rest, fs, d =>
      match pending fs with
      | some e => some (how, e)
      | none =>
          match d.run s with
          | .error e => some (how, e)
          | .ok (d1, _) => firstFailure rest fs.tail d1

/-- The error of `db.Get` into a `Place` once the statement has gone through:
no row, or a first row that does not scan. -/
def getFailure : List Row → Option String
  | [] => some errNoRows
  | r :: _ =>
      match structScan r with
      | .error e => some e
      | .ok _ => none

/-- The error of the first `StructScan` that fails in the row loop, when the
loop gets that far: it ends before when `rows.Next()` returns false. -/
def scanFailure : List Row → List (Option String) → Option String
  | [], _ => none
  | r :: rest, fs =>
      match pending fs with
      | some _ => none
      | none =>
          match structScan r with
          | .error e => some e
          | .ok _ => scanFailure rest fs.tail

/-- How the process ends when a statement fails with error `e`: `os.Exit(1)`
by `log.Fatal` when the code checks the error, the panic of `MustExec`
otherwise. -/
def failureEnd (how : Option String) (e : String) : Halt :=
  match how with
  | some _ => .exit 1
  | none => .panic e

/-- The log after a statement has failed with error `e`: the message of the
statement with the error text when the code checks the error, nothing new
after `MustExec`. -/
def failureLog (how : Option String) (e : String) (log : List String) : List String :=
  match how with
  | some pre => log ++ [pre ++ e]
  | none => log

/-! # Theorems -/

/-! ## Evaluation lemmas -/

@[simp] theorem bind_run {α β : Type} (m : Prog α) (f : α → Prog β) (w : World) :
    (m >>= f) w = match m w with
      | .ok a w1 => f a w1
      | .halt h w1 => .halt h w1 := rfl

@[simp] theorem pure_run {α : Type} (a : α) (w : World) : (pure a : Prog α) w = .ok a w := rfl

theorem loopBody_eq (w : World) :
    loopBody w = match prompt w with
      | .ok c w1 => dispatch c w1
      | .halt h w1 => .halt h w1 := by
  rcases hs : w.stdin with _ | ⟨_ | v, rest⟩ <;>
  simp [loopBody, prompt, screenClear, screenMoveTopLeft, menu, fmtPrint, fmtPrintln,
    fmtScanlnUint8, setChoice, hs]

/-- The prompt always returns, and touches neither the database nor the log. -/
theorem prompt_frame (w : World) :
    ∃ c w1, prompt w = .ok c w1 ∧ w1.choice = c ∧ w1.trace = w.trace ∧ w1.server = w.server ∧
      w1.conns = w.conns ∧ w1.logFile = w.logFile ∧ w1.db = w.db ∧ w1.connStr = w.connStr ∧
      w1.faults = w.faults := by
  rcases hs : w.stdin with _ | ⟨_ | v, rest⟩ <;>
  simp [prompt, screenClear, screenMoveTopLeft, menu, fmtPrint, fmtPrintln,
    fmtScanlnUint8, setChoice, hs] <;>
  exact ⟨_, _, ⟨rfl, rfl⟩, rfl, rfl, rfl, rfl, rfl, rfl, rfl, rfl⟩

theorem dispatch_default (c : Nat) (hc : ¬ (10 ≤ c ∧ c ≤ 19)) :
    dispatch c = (do fmtPrintln "Bye"; osExit 0) := by
  have h : c < 10 ∨ 19 < c := by omega
  unfold dispatch
  rcases h with h | h <;>
  simp [show c ≠ 10 by omega, show c ≠ 11 by omega, show c ≠ 12 by omega, show c ≠ 13 by omega,
    show c ≠ 14 by omega, show c ≠ 15 by omega, show c ≠ 16 by omega, show c ≠ 17 by omega,
    show c ≠ 18 by omega, show c ≠ 19 by omega]

/-- C1: when the code that `menu` returned in a pass of the command loop is not
one of 10..19, the pass takes the `default` branch: the process makes no call
to the database driver, leaves the server and the log untouched, prints `Bye`
and ends with `os.Exit(0)`. -/
theorem unrecognized_code_says_bye_and_exits (w w1 : World) (c fuel : Nat)
    (hmenu : prompt w = .ok c w1) (hc : ¬ (10 ≤ c ∧ c ≤ 19)) :
    mainLoop (fuel + 1) w = some (.exit 0, { w1 with stdout := w1.stdout ++ "Bye\n" }) ∧
      w1.trace = w.trace ∧ w1.server = w.server ∧ w1.conns = w.conns ∧
      w1.logFile = w.logFile := by
  obtain ⟨c', w1', h1, -, h3, h4, h5, h6, -⟩ := prompt_frame w
  rw [hmenu] at h1
  injection h1 with hcc hww
  subst hcc hww
  refine ⟨?_, h3, h4, h5, h6⟩
  simp [mainLoop, loopBody_eq, hmenu, dispatch_default c hc, fmtPrintln, fmtPrint, osExit]

/-- Witness for C1: the user types 20 (`quit`) at the first prompt. -/
theorem unrecognized_code_says_bye_and_exits_witness :
    mainLoop 1 (World.start "cs" emptyTable [] [.num 20]) =
      some (.exit 0,
        { World.start "cs" emptyTable [] [] with
          choice := 20
          stdout := "\x1b[2J" ++ "\x1b[H" ++ (menuText ++ "\n") ++ "Select 10..20: " ++ "\n" ++ "Bye\n" }) :=
  (unrecognized_code_says_bye_and_exits (World.start "cs" emptyTable [] [.num 20])
    { World.start "cs" emptyTable [] [] with
      choice := 20
      stdout := "\x1b[2J" ++ "\x1b[H" ++ (menuText ++ "\n") ++ "Select 10..20: " ++ "\n" }
    20 0 (by rfl) (by decide)).1

/-! ## What every operation does with the connection and with failures -/

theorem connect_run (w : World) :
    connect w = match pending w.faults with
      | some e =>
          .halt (.panic ("Failed to connect to the database: " ++ e))
            { w with db := .nil, err := some e, faults := w.faults.tail,
                     trace := w.trace ++ [.connect "postgres" w.connStr],
                     logFile := w.logFile ++ ["Failed to connect to the database: " ++ e] }
      | none =>
          match pending w.faults.tail with
          | some e =>
              .halt (.panic ("Failed to ping the database: " ++ e))
                { w with db := .opened, err := some e, conns := w.conns + 1,
                         faults := w.faults.tail.tail,
                         trace := w.trace ++ [.connect "postgres" w.connStr, .ping],
                         logFile := w.logFile ++ ["Failed to ping the database: " ++ e] }
          | none => .ok () (connected w) := by
  rcases h0 : pending w.faults with _ | e0 <;>
  rcases h1 : pending w.faults.tail with _ | e1 <;>
  simp [connect, h0, h1, sqlxConnect, dbPing, onHandle, nextFault, record, logPrintln, goPanic,
    setErr, getConnStr, connected]

theorem dbExec_run (s : Stmt) (w : World) (hdb : w.db = .opened) :
    dbExec s w = match pending w.faults with
      | some e => .ok (.error e) (sent s w)
      | none =>
          match w.server.run s with
          | .error e => .ok (.error e) (sent s w)
          | .ok (d, r) => .ok (.ok r.result) { sent s w with server := d } := by
  rcases h0 : pending w.faults with _ | e0
  · rcases h1 : w.server.run s with e | ⟨d, r⟩ <;>
    simp [dbExec, send, onHandle, nextFault, record, hdb, h0, h1, sent]
  · simp [dbExec, send, onHandle, nextFault, record, hdb, h0, sent]

theorem dbClose_run (w : World) (hdb : w.db = .opened) :
    dbClose w = .ok () { w with db := .closed, conns := w.conns - 1, trace := w.trace ++ [.close] } := by
  simp [dbClose, record, hdb]

theorem dbMustExec_run (s : Stmt) (w : World) (hdb : w.db = .opened) :
    dbMustExec s w = match pending w.faults with
      | some e => .halt (.panic e) (sent s w)
      | none =>
          match w.server.run s with
          | .error e => .halt (.panic e) (sent s w)
          | .ok (d, r) => .ok r.result { sent s w with server := d } := by
  rcases h0 : pending w.faults with _ | e0
  · rcases h1 : w.server.run s with e | ⟨d, r⟩ <;>
    simp [dbMustExec, dbExec_run, hdb, h0, h1, goPanic]
  · simp [dbMustExec, dbExec_run, hdb, h0, goPanic]

theorem dbGetPlace_run (s : Stmt) (w : World) (hdb : w.db = .opened) :
    dbGetPlace s w = match pending w.faults with
      | some e => .ok (.error e) (sent s w)
      | none =>
          match w.server.run s with
          | .error e => .ok (.error e) (sent s w)
          | .ok (d, .rows (row :: _)) => .ok (structScan row) { sent s w with server := d }
          | .ok (d, _) => .ok (.error errNoRows) { sent s w with server := d } := by
  rcases h0 : pending w.faults with _ | e0
  · rcases h1 : w.server.run s with e | ⟨d, n | (_ | ⟨r, rs⟩) | n⟩ <;>
    simp [dbGetPlace, send, onHandle, nextFault, record, hdb, h0, h1, sent]
  · simp [dbGetPlace, send, onHandle, nextFault, record, hdb, h0, sent]

theorem dbGetInt_run (s : Stmt) (w : World) (hdb : w.db = .opened) :
    dbGetInt s w = match pending w.faults with
      | some e => .ok (.error e) (sent s w)
      | none =>
          match w.server.run s with
          | .error e => .ok (.error e) (sent s w)
          | .ok (d, .scalar n) => .ok (.ok n) { sent s w with server := d }
          | .ok (d, _) => .ok (.error errNoRows) { sent s w with server := d } := by
  rcases h0 : pending w.faults with _ | e0
  · rcases h1 : w.server.run s with e | ⟨d, n | rs | n⟩ <;>
    simp [dbGetInt, send, onHandle, nextFault, record, hdb, h0, h1, sent]
  · simp [dbGetInt, send, onHandle, nextFault, record, hdb, h0, sent]

theorem dbQueryx_run (s : Stmt) (w : World) (hdb : w.db = .opened) :
    dbQueryx s w = match pending w.faults with
      | some e => .ok (.error e) (sent s w)
      | none =>
          match w.server.run s with
          | .error e => .ok (.error e) (sent s w)
          | .ok (d, .rows rs) => .ok (.ok rs) { sent s w with server := d }
          | .ok (d, _) => .ok (.ok []) { sent s w with server := d } := by
  rcases h0 : pending w.faults with _ | e0
  · rcases h1 : w.server.run s with e | ⟨d, n | rs | n⟩ <;>
    simp [dbQueryx, send, onHandle, nextFault, record, hdb, h0, h1, sent]
  · simp [dbQueryx, send, onHandle, nextFault, record, hdb, h0, sent]

/-- A logged message `pre ++ e` starts with `name`-part `a` when `pre` does. -/
theorem starts_with (a b ab e : String) (h : ab = a ++ b) : ∃ rest, ab ++ e = a ++ rest :=
  ⟨b ++ e, by rw [h, String.append_assoc]⟩

theorem createSchema_summary (w : World) : Summary "createSchema" false 3 w (createSchema w) := by
  unfold createSchema
  rcases h0 : pending w.faults with _ | e0 <;>
  rcases h1 : pending w.faults.tail with _ | e1 <;>
  simp [h0, h1, connect_run, Summary, consulted, List.replicate, h0, h1, AbortLogged]
  rcases h2 : pending w.faults.tail.tail with _ | e2 <;>
  rcases h3 : w.server.schema with _ | sc <;>
  simp [h2, h3, connected, sent, dbExec_run, dbClose_run, withDefer, logFatal, logPrintln, osExit,
    fmtPrint, fmtPrintln, fmtScanln, Database.run, Summary,
      consulted, List.replicate, h0, h1, ReturnsClosed, AbortLogged,
    List.filter, Event.isConnect] <;>
  exact starts_with _ " - " _ _ rfl

theorem connectClose_summary (w : World) :
    Summary "connect" false 2 w ((do connect; dbClose : Prog Unit) w) := by
  rcases h0 : pending w.faults with _ | e0 <;>
  rcases h1 : pending w.faults.tail with _ | e1 <;>
  simp [h0, h1, connect_run, Summary,
    consulted, List.replicate, h0, h1, AbortLogged, connected, dbClose_run, ReturnsClosed,
    List.filter, Event.isConnect]

theorem selectSchema_summary (w : World) : Summary "selectSchema" true 3 w (selectSchema w) := by
  unfold selectSchema
  rcases h0 : pending w.faults with _ | e0 <;>
  rcases h1 : pending w.faults.tail with _ | e1 <;>
  simp [h0, h1, connect_run, Summary, consulted, List.replicate, h0, h1, AbortLogged]
  rcases h2 : pending w.faults.tail.tail with _ | e2 <;>
  simp [h2, connected, sent, dbMustExec_run, dbClose_run, withDefer, Database.run, Summary,
    consulted, List.replicate, h0, h1,
    ReturnsClosed, AbortLogged, List.filter, Event.isConnect]

theorem createTable_summary (w : World) : Summary "createTable" false 3 w (createTable w) := by
  unfold createTable
  rcases h0 : pending w.faults with _ | e0 <;>
  rcases h1 : pending w.faults.tail with _ | e1 <;>
  simp [h0, h1, connect_run, Summary, consulted, List.replicate, h0, h1, AbortLogged]
  rcases h2 : pending w.faults.tail.tail with _ | e2 <;>
  rcases h3 : w.server.schema with _ | _ | t <;>
  simp [h2, h3, connected, sent, dbExec_run, dbClose_run, withDefer, logFatal, logPrintln, osExit,
    fmtPrint, fmtPrintln, fmtScanln, Database.run, Summary,
      consulted, List.replicate, h0, h1, ReturnsClosed, AbortLogged,
    List.filter, Event.isConnect] <;>
  exact starts_with _ " - " _ _ rfl

theorem deleteAllRows_summary (w : World) : Summary "deleteAllRows" true 3 w (deleteAllRows w) := by
  unfold deleteAllRows
  rcases h0 : pending w.faults with _ | e0 <;>
  rcases h1 : pending w.faults.tail with _ | e1 <;>
  simp [h0, h1, connect_run, Summary, consulted, List.replicate, h0, h1, AbortLogged]
  rcases h2 : pending w.faults.tail.tail with _ | e2 <;>
  rcases h3 : w.server.schema with _ | _ | t <;>
  simp [h2, h3, connected, sent, dbMustExec_run, dbClose_run, withDefer, Database.run,
    Database.table, Summary,
      consulted, List.replicate, h0, h1, ReturnsClosed, AbortLogged, List.filter, Event.isConnect]

theorem getNumOfRows_summary (w : World) : Summary "getNumOfRows" false 3 w (getNumOfRows w) := by
  unfold getNumOfRows
  rcases h0 : pending w.faults with _ | e0 <;>
  rcases h1 : pending w.faults.tail with _ | e1 <;>
  simp [h0, h1, connect_run, Summary, consulted, List.replicate, h0, h1, AbortLogged]
  rcases h2 : pending w.faults.tail.tail with _ | e2 <;>
  rcases h3 : w.server.schema with _ | _ | t <;>
  simp [h2, h3, connected, sent, dbGetInt_run, dbClose_run, withDefer, logFatal, logPrintln,
    osExit, fmtPrint, fmtPrintln, fmtScanln, setErr, Database.run, Database.table, Summary,
      consulted, List.replicate, h0, h1,
    ReturnsClosed, AbortLogged, List.filter, Event.isConnect] <;>
  exact starts_with _ " - " _ _ rfl

theorem insertRowUsingStruct_summary (w : World) :
    Summary "insertRowUsingStruct" false 4 w (insertRowUsingStruct w) := by
  unfold insertRowUsingStruct
  rcases h0 : pending w.faults with _ | e0 <;>
  rcases h1 : pending w.faults.tail with _ | e1 <;>
  simp [h0, h1, connect_run, Summary, consulted, List.replicate, h0, h1, AbortLogged]
  rcases h2 : pending w.faults.tail.tail with _ | e2 <;>
  rcases h3 : w.server.schema with _ | _ | t <;>
  rcases h4 : pending w.faults.tail.tail.tail with _ | e4 <;>
  simp [h2, h3, h4, connected, sent, dbNamedExecInsert, dbExec_run, dbClose_run,
    Result.RowsAffected, nextFault, withDefer, logFatal, logPrintln,
    osExit, Database.run, Database.table, Summary, consulted, List.replicate, h0, h1, Reply.result,
    ReturnsClosed, AbortLogged, List.filter, Event.isConnect] <;>
  first
    | exact starts_with _ " (NamedExec)- " _ _ rfl
    | exact starts_with _ " (RowsAffected)- " _ _ rfl

theorem queryRow_summary (w : World) : Summary "queryRow" false 3 w (queryRow w) := by
  unfold queryRow
  rcases h0 : pending w.faults with _ | e0 <;>
  rcases h1 : pending w.faults.tail with _ | e1 <;>
  simp [h0, h1, connect_run, Summary, consulted, List.replicate, h0, h1, AbortLogged]
  rcases h2 : pending w.faults.tail.tail with _ | e2
  swap
  · simp [h2, connected, sent, dbGetPlace_run, withDefer, logFatal, logPrintln, osExit, Summary,
    consulted, List.replicate, h0, h1,
      AbortLogged]
    exact starts_with _ " - " _ _ rfl
  rcases h3 : w.server.schema with _ | _ | t
  · simp [h2, h3, connected, sent, dbGetPlace_run, withDefer, logFatal, logPrintln, osExit,
      Summary, consulted, List.replicate, h0, h1, AbortLogged, Database.run, Database.table]
    exact starts_with _ " - " _ _ rfl
  · simp [h2, h3, connected, sent, dbGetPlace_run, withDefer, logFatal, logPrintln, osExit,
      Summary, consulted, List.replicate, h0, h1, AbortLogged, Database.run, Database.table]
    exact starts_with _ " - " _ _ rfl
  rcases h4 : t.rows.filter (fun r => decide (r.telcode = some 852)) with _ | ⟨r, rs⟩
  · simp [h2, h3, h4, connected, sent, dbGetPlace_run, withDefer, logFatal, logPrintln, osExit,
      Summary, consulted, List.replicate, h0, h1, AbortLogged, Database.run, Database.table]
    exact starts_with _ " - " _ _ rfl
  rcases h5 : structScan r with e | pl
  · simp [h2, h3, h4, h5, connected, sent, dbGetPlace_run, withDefer, logFatal, logPrintln,
      osExit, Summary, consulted, List.replicate, h0, h1, AbortLogged, Database.run, Database.table]
    exact starts_with _ " - " _ _ rfl
  rcases h6 : pl.City.Valid <;>
  simp [h2, h3, h4, h5, h6, connected, sent, dbGetPlace_run, dbClose_run, withDefer, fmtPrint,
    fmtPrintln, fmtScanln, Summary,
      consulted, List.replicate, h0, h1, ReturnsClosed, Database.run, Database.table, List.filter,
    Event.isConnect]

/-! ### The row loop of `queryRows` -/

theorem print_line (out : String) (p : Place) :
    (if p.City.Valid = true then out ++ p.Country ++ ", " ++ p.City.Str ++ ", "
      else out ++ p.Country ++ ", " ++ "N.A, ") ++ (toString p.TelephoneCode ++ "\n") =
      out ++ placeLine p := by
  have hna : ∀ x : String, ", " ++ ("N.A, " ++ x) = ", N.A, " ++ x := by
    intro x
    rw [← String.append_assoc]
    rfl
  rcases hv : p.City.Valid <;>
  simp [placeLine, specLine, Place.city, hv, String.append_assoc, hna]

theorem queryRowsLoop_post (rows : List Row) : ∀ w, LoopPost rows w (queryRowsLoop rows w) := by
  induction rows with
  | nil =>
      intro w
      rcases h0 : pending w.faults with _ | e0 <;>
      simp [queryRowsLoop, rowsNext, nextFault, LoopPost, h0, concatLines]
  | cons r rest ih =>
      intro w
      rcases h0 : pending w.faults with _ | e0
      swap
      · simp [queryRowsLoop, rowsNext, nextFault, LoopPost, h0]
        exact ⟨[], by simp, by simp [concatLines]⟩
      rcases h1 : structScan r with e | p
      · simp [queryRowsLoop, rowsNext, nextFault, LoopPost, h0, h1, logFatal, logPrintln, osExit]
      have hrun : queryRowsLoop (r :: rest) w =
          queryRowsLoop rest { w with faults := w.faults.tail, stdout := w.stdout ++ placeLine p } := by
        rw [← print_line]
        rcases hv : p.City.Valid <;>
        simp [queryRowsLoop, rowsNext, nextFault, h0, h1, hv, fmtPrint, fmtPrintln]
      rw [hrun]
      have post := ih { w with faults := w.faults.tail, stdout := w.stdout ++ placeLine p }
      revert post
      rcases queryRowsLoop rest { w with faults := w.faults.tail, stdout := w.stdout ++ placeLine p }
        with ⟨u, w1⟩ | ⟨h, w1⟩
      · simp only [LoopPost]
        rintro ⟨a1, a2, a3, a4, a5, a6, a7, a8, a9, ps, hps, hout⟩
        refine ⟨a1, a2, a3, a4, a5, a6, a7, a8, a9, p :: ps, ?_, ?_⟩
        · simp only [List.map_cons, h1]
          exact (List.prefix_cons_inj _).mpr hps
        · simp [hout, concatLines, String.append_assoc]
      · simp only [LoopPost]
        exact fun hh => hh

theorem Quiet.pending {fs : List (Option String)} (h : Quiet fs) : pending fs = none := by
  cases fs with
  | nil => rfl
  | cons f rest => exact h f (List.mem_cons_self _ _)

theorem Quiet.tail {fs : List (Option String)} (h : Quiet fs) : Quiet fs.tail :=
  fun f hf => h f (List.mem_of_mem_tail hf)

theorem drop_succ_tail (fs : List (Option String)) (n : Nat) :
    fs.drop (n + 1) = fs.tail.drop n := by
  cases fs <;> simp

/-- With no failure pending and every row scannable, the loop prints all rows. -/
theorem queryRowsLoop_all (rows : List Row) :
    ∀ (ps : List Place) (w : World), rows.map structScan = ps.map Except.ok → Quiet w.faults →
      queryRowsLoop rows w =
        .ok () { w with faults := w.faults.drop (rows.length + 1),
                        stdout := w.stdout ++ concatLines (ps.map placeLine) } := by
  induction rows with
  | nil =>
      intro ps w hps hq
      cases ps with
      | nil => simp [queryRowsLoop, rowsNext, nextFault, hq.pending, concatLines]
      | cons p ps => simp at hps
  | cons r rest ih =>
      intro ps w hps hq
      cases ps with
      | nil => simp at hps
      | cons p ps =>
          simp only [List.map_cons, List.cons.injEq] at hps
          obtain ⟨h1, hrest⟩ := hps
          have hrun : queryRowsLoop (r :: rest) w =
              queryRowsLoop rest
                { w with faults := w.faults.tail, stdout := w.stdout ++ placeLine p } := by
            rw [← print_line]
            rcases hv : p.City.Valid <;>
            simp [queryRowsLoop, rowsNext, nextFault, hq.pending, h1, hv, fmtPrint, fmtPrintln]
          rw [hrun, ih ps _ hrest hq.tail]
          simp only [List.length_cons]
          rw [drop_succ_tail w.faults (rest.length + 1)]
          simp [concatLines, String.append_assoc]

theorem queryRows_summary (w : World) : Summary "query" false 3 w (queryRows w) := by
  unfold queryRows
  rcases h0 : pending w.faults with _ | e0 <;>
  rcases h1 : pending w.faults.tail with _ | e1 <;>
  simp [h0, h1, connect_run, Summary, consulted, List.replicate, h0, h1, AbortLogged]
  rcases h2 : pending w.faults.tail.tail with _ | e2
  swap
  · simp [h2, connected, sent, dbQueryx_run, withDefer, logFatal, logPrintln, osExit, Summary,
    consulted, List.replicate, h0, h1,
      AbortLogged]
    exact starts_with _ " - " _ _ rfl
  rcases h3 : w.server.schema with _ | _ | t
  · simp [h2, h3, connected, sent, dbQueryx_run, withDefer, logFatal, logPrintln, osExit,
      Summary, consulted, List.replicate, h0, h1, AbortLogged, Database.run, Database.table]
    exact starts_with _ " - " _ _ rfl
  · simp [h2, h3, connected, sent, dbQueryx_run, withDefer, logFatal, logPrintln, osExit,
      Summary, consulted, List.replicate, h0, h1, AbortLogged, Database.run, Database.table]
    exact starts_with _ " - " _ _ rfl
  have post := queryRowsLoop_post t.rows
    { w with db := .opened, err := none, conns := w.conns + 1, faults := w.faults.tail.tail.tail,
             trace := w.trace ++ [.connect "postgres" w.connStr, .ping, .stmt .selectAll] }
  obtain ⟨res, hres⟩ : ∃ res, queryRowsLoop t.rows
    { w with db := .opened, err := none, conns := w.conns + 1, faults := w.faults.tail.tail.tail,
             trace := w.trace ++ [.connect "postgres" w.connStr, .ping, .stmt .selectAll] } = res :=
    ⟨_, rfl⟩
  rw [hres] at post
  simp only [withDefer, bind_run, dbQueryx_run, h2, h3, Database.run, Database.table, sent,
    connected, fmtPrintln, fmtPrint, fmtScanln, List.append_assoc, List.cons_append,
    List.nil_append, hres]
  rcases res with ⟨u, w1⟩ | ⟨h, w1⟩
  · obtain ⟨a1, a2, a3, a4, a5, a6, a7, a8, a9, ps, hps, hout⟩ := post
    simp [dbClose, record, a1, a2, a3, a7, h2, Summary, consulted, List.replicate, h0, h1,
      ReturnsClosed, List.filter, Event.isConnect]
  · obtain ⟨rfl, e, he⟩ := post
    simp [Summary, consulted, List.replicate, h0, h1, AbortLogged, he]
    exact starts_with _ " (rows.Next) - " _ _ rfl

theorem insertRow_summary (w : World) : Summary "insertRow" true 7 w (insertRow w) := by
  unfold insertRow
  rcases h0 : pending w.faults with _ | e0 <;>
  rcases h1 : pending w.faults.tail with _ | e1 <;>
  simp [h0, h1, connect_run, Summary, consulted, List.replicate, h0, h1, AbortLogged]
  rcases h2 : pending w.faults.tail.tail with _ | e2
  swap
  · simp [h2, connected, sent, dbExec_run, dbMustExec_run, dbClose_run, withDefer, logFatal,
      logPrintln, osExit, Database.run, Database.table, Summary,
        consulted, List.replicate, h0, h1, ReturnsClosed, AbortLogged,
      List.filter, Event.isConnect]
    exact starts_with _ " (Hong Kong) - " _ _ rfl
  rcases h3 : w.server.schema with _ | _ | t
  · simp [h2, h3, connected, sent, dbExec_run, dbMustExec_run, dbClose_run, withDefer, logFatal,
      logPrintln, osExit, Database.run, Database.table, Summary,
        consulted, List.replicate, h0, h1, ReturnsClosed, AbortLogged,
      List.filter, Event.isConnect]
    exact starts_with _ " (Hong Kong) - " _ _ rfl
  · simp [h2, h3, connected, sent, dbExec_run, dbMustExec_run, dbClose_run, withDefer, logFatal,
      logPrintln, osExit, Database.run, Database.table, Summary,
        consulted, List.replicate, h0, h1, ReturnsClosed, AbortLogged,
      List.filter, Event.isConnect]
    exact starts_with _ " (Hong Kong) - " _ _ rfl
  rcases h4 : pending w.faults.tail.tail.tail with _ | e4
  swap
  · simp [h2, h3, h4, connected, sent, dbExec_run, dbMustExec_run, dbClose_run, withDefer, logFatal,
      logPrintln, osExit, Database.run, Database.table, Summary,
        consulted, List.replicate, h0, h1, ReturnsClosed, AbortLogged,
      List.filter, Event.isConnect]
  rcases h5 : pending w.faults.tail.tail.tail.tail with _ | e5
  swap
  · simp [h2, h3, h4, h5, connected, sent, dbExec_run, dbMustExec_run, dbClose_run, withDefer, logFatal,
      logPrintln, osExit, Database.run, Database.table, Summary,
        consulted, List.replicate, h0, h1, ReturnsClosed, AbortLogged,
      List.filter, Event.isConnect]
    exact starts_with _ " (Singapore) - " _ _ rfl
  rcases h6 : pending w.faults.tail.tail.tail.tail.tail with _ | e6
  swap
  · simp [h2, h3, h4, h5, h6, connected, sent, dbExec_run, dbMustExec_run, dbClose_run, withDefer, logFatal,
      logPrintln, osExit, Database.run, Database.table, Summary,
        consulted, List.replicate, h0, h1, ReturnsClosed, AbortLogged,
      List.filter, Event.isConnect]
  rcases h7 : pending w.faults.tail.tail.tail.tail.tail.tail with _ | e7
  swap
  · simp [h2, h3, h4, h5, h6, h7, connected, sent, dbExec_run, dbMustExec_run, dbClose_run, withDefer, logFatal,
      logPrintln, osExit, Database.run, Database.table, Summary,
        consulted, List.replicate, h0, h1, ReturnsClosed, AbortLogged,
      List.filter, Event.isConnect]
    exact starts_with _ " (South Africa) - " _ _ rfl
  simp [h2, h3, h4, h5, h6, h7, connected, sent, dbExec_run, dbMustExec_run, dbClose_run, withDefer, logFatal,
      logPrintln, osExit, Database.run, Database.table, Summary,
        consulted, List.replicate, h0, h1, ReturnsClosed, AbortLogged,
      List.filter, Event.isConnect]

/-! ## The command loop -/

theorem dispatch_summary (c : Nat) (hlo : 10 ≤ c) (hhi : c ≤ 19) (w : World) :
    Summary (if c = 17 then "query" else opName c) (usesMustExec c) (driverCalls c) w (dispatch c w) := by
  interval_cases c
  · exact connectClose_summary w
  · exact createSchema_summary w
  · exact selectSchema_summary w
  · exact createTable_summary w
  · exact insertRow_summary w
  · exact insertRowUsingStruct_summary w
  · exact queryRow_summary w
  · exact queryRows_summary w
  · exact getNumOfRows_summary w
  · exact deleteAllRows_summary w

/-- Apart from `rows.Next()`, every failure of a driver call is fatal: an
operation that returns to the loop has met no failure in `sqlx.Connect`, in
`Ping`, in any of its statements or in `RowsAffected`. -/
theorem returned_operation_met_no_failure (c : Nat) (hlo : 10 ≤ c) (hhi : c ≤ 19)
    (w w1 : World) (hret : dispatch c w = .ok () w1) :
    consulted (driverCalls c) w.faults = List.replicate (driverCalls c) none := by
  have hs := dispatch_summary c hlo hhi w
  rw [hret] at hs
  exact hs.2

/-- A pass of the loop that halts ends the process: no further pass is made. -/
theorem mainLoop_halt (w w1 : World) (h : Halt) (fuel : Nat) (hl : loopBody w = .halt h w1) :
    mainLoop (fuel + 1) w = some (h, w1) := by
  simp [mainLoop, hl]

theorem mainLoop_continue (w w0 w1 : World) (c fuel : Nat) (hp : prompt w = .ok c w0)
    (hd : dispatch c w0 = .ok () w1) : mainLoop (fuel + 1) w = mainLoop fuel w1 := by
  simp [mainLoop, loopBody_eq, hp, hd]

theorem codeOfTrace_dispatch (c : Nat) (hlo : 10 ≤ c) (hhi : c ≤ 19) :
    codeOfTrace (dispatch c probe).world.trace = c := by
  interval_cases c <;> rfl

theorem menuText_eq : menuText = renderMenu menuEntries := by rfl

/-- C2: for every menu code `c` in 10..19 the `switch` of `main` runs the
operation that the menu text labels with `c` (10 connect, followed by closing
the handle, 11 createSchema, 12 selectSchema, 13 createTable, 14 insertRow,
15 insertRowUsingStruct, 16 queryRow, 17 queryRows, 18 getNumOfRows,
19 deleteAllRows); no other code in 10..19 runs the same operation; and when
the operation returns, the loop goes on with the next pass instead of ending. -/
theorem each_menu_code_runs_its_operation (c : Nat) (hlo : 10 ≤ c) (hhi : c ≤ 19) :
    menuText = renderMenu menuEntries ∧
    (∃ label, (c, label) ∈ menuEntries ∧ labelledOperation label = some (dispatch c)) ∧
    (∀ c2, 10 ≤ c2 → c2 ≤ 19 → dispatch c2 = dispatch c → c2 = c) ∧
    (∀ (w w0 w1 : World) (fuel : Nat), prompt w = .ok c w0 → dispatch c w0 = .ok () w1 →
      mainLoop (fuel + 1) w = mainLoop fuel w1) := by
  refine ⟨menuText_eq, ?_, ?_, ?_⟩
  · interval_cases c
    · exact ⟨"connect", by decide, rfl⟩
    · exact ⟨"create shema", by decide, rfl⟩
    · exact ⟨"select schema", by decide, rfl⟩
    · exact ⟨"create table", by decide, rfl⟩
    · exact ⟨"insert row", by decide, rfl⟩
    · exact ⟨"insert row using struct", by decide, rfl⟩
    · exact ⟨"query row", by decide, rfl⟩
    · exact ⟨"query rows", by decide, rfl⟩
    · exact ⟨"get num of rows in table", by decide, rfl⟩
    · exact ⟨"delete all rows", by decide, rfl⟩
  · intro c2 hlo2 hhi2 heq
    rw [← codeOfTrace_dispatch c2 hlo2 hhi2, ← codeOfTrace_dispatch c hlo hhi, heq]
  · intro w w0 w1 fuel hp hd
    exact mainLoop_continue w w0 w1 c fuel hp hd

/-! ## Connections -/

theorem loopBody_conns (w w1 : World) (h : loopBody w = .ok () w1) : w1.conns = w.conns := by
  obtain ⟨c, w0, hp, -, -, -, hconns, -⟩ := prompt_frame w
  rw [loopBody_eq, hp] at h
  dsimp only at h
  by_cases hc : 10 ≤ c ∧ c ≤ 19
  · have hs := dispatch_summary c hc.1 hc.2 w0
    rw [h] at hs
    obtain ⟨⟨evs, -, -, -, -, hcon, -⟩, -⟩ := hs
    rw [hcon, hconns]
  · simp [dispatch_default c hc, fmtPrintln, fmtPrint, osExit] at h

theorem promptWorlds_conns (fuel : Nat) :
    ∀ w : World, w.conns = 0 → ∀ v ∈ promptWorlds fuel w, v.conns = 0 := by
  induction fuel with
  | zero => intro w _ v hv; simp [promptWorlds] at hv
  | succ n ih =>
      intro w hw v hv
      simp only [promptWorlds, List.mem_cons] at hv
      rcases hv with rfl | hv
      · exact hw
      · rcases hl : loopBody w with ⟨u, w1⟩ | ⟨h, w1⟩
        · rw [hl] at hv
          exact ih w1 (by rw [loopBody_conns w w1 hl, hw]) v hv
        · rw [hl] at hv
          simp at hv

/-- C9: every operation (menu codes 10..19) that returns to the command loop
has made exactly one `sqlx.Connect` call, with driver `postgres` and the
configured connection string, its last driver call is the one `db.Close()`,
the number of open handles is what it was before and the global handle is
closed; so in a process that starts without an open handle, no handle is open
in any world in which the menu is shown. -/
theorem each_operation_opens_one_connection_and_closes_it (c : Nat) (hlo : 10 ≤ c)
    (hhi : c ≤ 19) (w w1 : World) (hret : dispatch c w = .ok () w1) :
    (∃ evs, w1.trace = w.trace ++ evs ∧
      evs.filter Event.isConnect = [.connect "postgres" w.connStr] ∧
      evs.getLast? = some .close ∧ evs.count .close = 1 ∧
      w1.conns = w.conns ∧ w1.db = .closed) ∧
    (∀ (fuel : Nat) (v0 : World), v0.conns = 0 → ∀ v ∈ promptWorlds fuel v0, v.conns = 0) := by
  refine ⟨?_, fun fuel v0 h0 => promptWorlds_conns fuel v0 h0⟩
  have hs := dispatch_summary c hlo hhi w
  rw [hret] at hs
  exact hs.1

/-- Witness for C9: `createTable` (code 13) on a server that has schema
`test6` but not the table. -/
theorem each_operation_opens_one_connection_and_closes_it_witness :
    (∃ evs, [Event.connect "postgres" "cs", .ping, .stmt .createTable, .close] = [] ++ evs ∧
      evs.filter Event.isConnect = [.connect "postgres" "cs"] ∧
      evs.getLast? = some .close ∧ evs.count .close = 1 ∧
      (0 : Nat) = 0 ∧ Handle.closed = .closed) ∧
    (∀ (fuel : Nat) (v0 : World), v0.conns = 0 → ∀ v ∈ promptWorlds fuel v0, v.conns = 0) :=
  each_operation_opens_one_connection_and_closes_it 13 (by decide) (by decide)
    (World.start "cs" { schema := some none } [] [])
    { World.start "cs" emptyTable [] [] with
      db := .closed
      stdout := "\nSuccess. Press any key to continue...\n"
      trace := [.connect "postgres" "cs", .ping, .stmt .createTable, .close] }
    (by simp [dispatch, createTable, World.start, emptyTable, connect_run, pending, connected,
          dbExec_run, sent, Database.run, withDefer, fmtPrintln, fmtPrint, fmtScanln, dbClose_run,
          pressAnyKey])

/-! ## Failures and the log -/

/-- C10, counterexample: `selectSchema` (code 12) whose `MustExec` fails halts
with a panic and has written nothing to the log, so it is not true that every
failing operation writes a message to the log before the process aborts.
Where a message is written, it need not carry the name of the operation:
`createSchema` (code 11) that cannot connect logs
`Failed to connect to the database: refused`, and `queryRows` (code 17) whose
`Queryx` fails logs `func query failed - refused`. -/
theorem failures_are_not_all_logged_under_the_operation_name :
    dispatch 12 (World.start "cs" emptyTable [none, none, some "connection reset"] []) =
      .halt (.panic "connection reset")
        { World.start "cs" emptyTable [] [] with
          db := .closed
          trace := [.connect "postgres" "cs", .ping, .stmt .setSearchPath, .close] } ∧
    ¬ (∀ (c : Nat) (w : World) (h : Halt) (w1 : World), 10 ≤ c → c ≤ 19 →
        dispatch c w = .halt h w1 → ∃ msg, w1.logFile = w.logFile ++ [msg]) ∧
    dispatch 11 (World.start "cs" emptyTable [some "refused"] []) =
      .halt (.panic "Failed to connect to the database: refused")
        { World.start "cs" emptyTable [] [] with
          err := some "refused"
          logFile := ["Failed to connect to the database: refused"]
          trace := [.connect "postgres" "cs"] } ∧
    (¬ ∃ rest, "Failed to connect to the database: refused" =
        "func " ++ opName 11 ++ " failed" ++ rest) ∧
    dispatch 17 (World.start "cs" emptyTable [none, none, some "refused"] []) =
      .halt (.exit 1)
        { World.start "cs" emptyTable [] [] with
          db := .opened
          conns := 1
          logFile := ["func query failed - refused"]
          trace := [.connect "postgres" "cs", .ping, .stmt .selectAll] } ∧
    (¬ ∃ rest, "func query failed - refused" = "func " ++ opName 17 ++ " failed" ++ rest) := by
  have hrun : dispatch 12 (World.start "cs" emptyTable [none, none, some "connection reset"] []) =
      .halt (.panic "connection reset")
        { World.start "cs" emptyTable [] [] with
          db := .closed
          trace := [.connect "postgres" "cs", .ping, .stmt .setSearchPath, .close] } := by
    simp [dispatch, selectSchema, World.start, emptyTable, connect_run, pending, connected,
      dbMustExec_run, sent, withDefer, dbClose_run]
  refine ⟨hrun, fun hall => ?_, ?_, ?_, ?_, ?_⟩
  · obtain ⟨msg, hmsg⟩ := hall 12 _ _ _ (by decide) (by decide) hrun
    simp [World.start] at hmsg
  · simp [dispatch, createSchema, World.start, emptyTable, connect_run, pending]
  · rintro ⟨rest, h⟩
    have := congrArg String.data h
    simp [opName] at this
  · simp [dispatch, queryRows, World.start, emptyTable, connect_run, pending, connected,
      dbQueryx_run, sent, withDefer, logFatal, logPrintln, osExit]
  · rintro ⟨rest, h⟩
    have := congrArg String.data h
    simp [opName] at this

/-! ## What the operations do to the table and print -/

/-- When `createTable` returns, schema `test6` existed, and the table
`test6.place` exists afterwards: the one that existed before, or a new empty
one. -/
theorem createTable_ok (w w1 : World) (h : createTable w = .ok () w1) :
    ∃ sc, w.server.schema = some sc ∧
      w1.server = { schema := some (some (sc.getD { rows := [], nextId := 1 })) } := by
  unfold createTable at h
  rcases h0 : pending w.faults with _ | e0 <;>
  rcases h1 : pending w.faults.tail with _ | e1 <;>
  simp [h0, h1, connect_run] at h
  rcases h2 : pending w.faults.tail.tail with _ | e2 <;>
  rcases h3 : w.server.schema with _ | _ | t <;>
  simp [h2, h3, connected, sent, dbExec_run, dbClose_run, withDefer, logFatal, logPrintln, osExit,
    fmtPrint, fmtPrintln, fmtScanln, Database.run] at h <;>
  subst h
  · simp
  · have : w.server = { schema := some (some t) } := by
      cases hs : w.server
      simp [hs] at h3
      simp [h3]
    simp [this]

theorem createTable_quiet (w : World) (sc : Option Table) (hs : w.server.schema = some sc)
    (hq : Quiet w.faults) : ∃ w1, createTable w = .ok () w1 := by
  unfold createTable
  have h0 := hq.pending
  have h1 := hq.tail.pending
  have h2 := hq.tail.tail.pending
  rcases sc with _ | t <;>
  simp [h0, h1, h2, hs, connect_run, connected, sent, dbExec_run, dbClose_run, withDefer,
    fmtPrint, fmtPrintln, fmtScanln, Database.run]

/-- C8: when `createTable` returns, the table `test6.place` exists; and on
every server on which the table exists, `createTable` returns whenever the
driver reports no failure, and whenever it returns it has left the server
state, the rows of the table included, as it was. -/
theorem createTable_creates_and_is_idempotent (w w1 : World)
    (hret : createTable w = .ok () w1) :
    (∃ t, w1.server.table = some t) ∧
    (∀ (v v1 : World) (t : Table), v.server.table = some t → createTable v = .ok () v1 →
      v1.server = v.server ∧ v1.server.table = some t) ∧
    (∀ (v : World) (t : Table), v.server.table = some t → Quiet v.faults →
      ∃ v1, createTable v = .ok () v1) := by
  have table_iff : ∀ (d : Database) (t : Table), d.table = some t ↔ d.schema = some (some t) := by
    intro d t
    rcases hd : d.schema with _ | _ | t2 <;> simp [Database.table, hd]
  refine ⟨?_, ?_, ?_⟩
  · obtain ⟨sc, -, hs⟩ := createTable_ok w w1 hret
    exact ⟨_, (table_iff _ _).mpr (by rw [hs])⟩
  · intro v v1 t ht hv
    obtain ⟨sc, hsc, hs⟩ := createTable_ok v v1 hv
    have hvs := (table_iff _ _).mp ht
    rw [hvs] at hsc
    cases hsc
    have : v1.server = v.server := by
      rw [hs]
      cases hvv : v.server
      simp [hvv] at hvs
      simp [hvs]
    exact ⟨this, by rw [this, ht]⟩
  · intro v t ht hq
    exact createTable_quiet v (some t) ((table_iff _ _).mp ht) hq

/-- Witness for C8: `createTable` on a server that has schema `test6` but not
the table. -/
theorem createTable_creates_and_is_idempotent_witness :
    (∃ t, emptyTable.table = some t) ∧
    (∀ (v v1 : World) (t : Table), v.server.table = some t → createTable v = .ok () v1 →
      v1.server = v.server ∧ v1.server.table = some t) ∧
    (∀ (v : World) (t : Table), v.server.table = some t → Quiet v.faults →
      ∃ v1, createTable v = .ok () v1) :=
  createTable_creates_and_is_idempotent
    (World.start "cs" { schema := some none } [] [])
    { World.start "cs" emptyTable [] [] with
      db := .closed
      stdout := "\nSuccess. Press any key to continue...\n"
      trace := [.connect "postgres" "cs", .ping, .stmt .createTable, .close] }
    (by simp [createTable, World.start, emptyTable, connect_run, pending, connected,
          dbExec_run, sent, Database.run, withDefer, fmtPrintln, fmtPrint, fmtScanln, dbClose_run,
          pressAnyKey])

theorem table_iff (d : Database) (t : Table) : d.table = some t ↔ d.schema = some (some t) := by
  rcases hd : d.schema with _ | _ | t2 <;> simp [Database.table, hd]

/-- When `deleteAllRows` returns, the table existed and is empty afterwards;
the sequence behind `id` keeps its value. -/
theorem deleteAllRows_ok (w w1 : World) (h : deleteAllRows w = .ok () w1) :
    ∃ t, w.server.schema = some (some t) ∧
      w1.server = { schema := some (some { rows := [], nextId := t.nextId }) } := by
  unfold deleteAllRows at h
  rcases h0 : pending w.faults with _ | e0 <;>
  rcases h1 : pending w.faults.tail with _ | e1 <;>
  simp [h0, h1, connect_run] at h
  rcases h2 : pending w.faults.tail.tail with _ | e2 <;>
  rcases h3 : w.server.schema with _ | _ | t <;>
  simp [h2, h3, connected, sent, dbMustExec_run, dbClose_run, withDefer, Database.run,
    Database.table] at h
  subst h
  simp

/-- When `getNumOfRows` returns, it has printed the number of rows of the
table and left the server as it was. -/
theorem getNumOfRows_ok (v v1 : World) (h : getNumOfRows v = .ok () v1) :
    ∃ t, v.server.schema = some (some t) ∧ v1.server = v.server ∧
      v1.stdout = v.stdout ++ ("Num of rows in table:  " ++ toString (t.rows.length : Int) ++ "\n") ++
        (pressAnyKey ++ "\n") := by
  unfold getNumOfRows at h
  rcases h0 : pending v.faults with _ | e0 <;>
  rcases h1 : pending v.faults.tail with _ | e1 <;>
  simp [h0, h1, connect_run] at h
  rcases h2 : pending v.faults.tail.tail with _ | e2 <;>
  rcases h3 : v.server.schema with _ | _ | t <;>
  simp [h2, h3, connected, sent, dbGetInt_run, dbClose_run, withDefer, logFatal, logPrintln,
    osExit, fmtPrint, fmtPrintln, fmtScanln, setErr, Database.run, Database.table] at h
  subst h
  simp [String.append_assoc]

theorem getNumOfRows_quiet (v : World) (t : Table) (hs : v.server.schema = some (some t))
    (hq : Quiet v.faults) : ∃ v1, getNumOfRows v = .ok () v1 := by
  unfold getNumOfRows
  have h0 := hq.pending
  have h1 := hq.tail.pending
  have h2 := hq.tail.tail.pending
  simp [h0, h1, h2, hs, connect_run, connected, sent, dbGetInt_run, dbClose_run, withDefer,
    fmtPrint, fmtPrintln, fmtScanln, setErr, Database.run, Database.table]

/-- When `queryRows` returns, it has printed the lines of a leading part of
the rows of the table, each row scanned into a `Place`. -/
theorem queryRows_ok (v v1 : World) (h : queryRows v = .ok () v1) :
    ∃ (t : Table) (ps : List Place), v.server.schema = some (some t) ∧ v1.server = v.server ∧
      ps.map Except.ok <+: t.rows.map structScan ∧
      v1.stdout = v.stdout ++ concatLines (ps.map placeLine) ++ (pressAnyKey ++ "\n") := by
  unfold queryRows at h
  rcases h0 : pending v.faults with _ | e0 <;>
  rcases h1 : pending v.faults.tail with _ | e1 <;>
  simp [h0, h1, connect_run] at h
  rcases h2 : pending v.faults.tail.tail with _ | e2
  swap
  · simp [h2, connected, sent, dbQueryx_run, withDefer, logFatal, logPrintln, osExit] at h
  rcases h3 : v.server.schema with _ | _ | t
  · simp [h2, h3, connected, sent, dbQueryx_run, withDefer, logFatal, logPrintln, osExit,
      Database.run, Database.table] at h
  · simp [h2, h3, connected, sent, dbQueryx_run, withDefer, logFatal, logPrintln, osExit,
      Database.run, Database.table] at h
  have post := queryRowsLoop_post t.rows
    { v with db := .opened, err := none, conns := v.conns + 1, faults := v.faults.tail.tail.tail,
             trace := v.trace ++ [.connect "postgres" v.connStr, .ping, .stmt .selectAll] }
  obtain ⟨res, hres⟩ : ∃ res, queryRowsLoop t.rows
    { v with db := .opened, err := none, conns := v.conns + 1, faults := v.faults.tail.tail.tail,
             trace := v.trace ++ [.connect "postgres" v.connStr, .ping, .stmt .selectAll] } = res :=
    ⟨_, rfl⟩
  rw [hres] at post
  simp only [withDefer, bind_run, dbQueryx_run, h2, h3, Database.run, Database.table, sent,
    connected, fmtPrintln, fmtPrint, fmtScanln, List.append_assoc, List.cons_append,
    List.nil_append, hres] at h
  rcases res with ⟨u, w1⟩ | ⟨hh, w1⟩
  · obtain ⟨a1, a2, a3, a4, a5, a6, a7, a8, a9, ps, hps, hout⟩ := post
    dsimp only at a3 a4 hout
    simp [dbClose, record, a3] at h
    subst h
    exact ⟨t, ps, rfl, by simpa using a4, hps, by simp [hout]⟩
  · obtain ⟨rfl, e, he⟩ := post
    simp at h

theorem queryRows_quiet (v : World) (t : Table) (ps : List Place)
    (hs : v.server.schema = some (some t)) (hps : t.rows.map structScan = ps.map Except.ok)
    (hq : Quiet v.faults) : ∃ v1, queryRows v = .ok () v1 ∧
      v1.stdout = v.stdout ++ concatLines (ps.map placeLine) ++ (pressAnyKey ++ "\n") := by
  unfold queryRows
  have h0 := hq.pending
  have h1 := hq.tail.pending
  have h2 := hq.tail.tail.pending
  have hloop := queryRowsLoop_all t.rows ps
    { v with db := .opened, err := none, conns := v.conns + 1, faults := v.faults.tail.tail.tail,
             trace := v.trace ++ [.connect "postgres" v.connStr, .ping, .stmt .selectAll] }
    hps hq.tail.tail.tail
  simp only [withDefer, bind_run, dbQueryx_run, h0, h1, h2, hs, connect_run, Database.run,
    Database.table, sent, connected, fmtPrintln, fmtPrint, fmtScanln, List.append_assoc,
    List.cons_append, List.nil_append, hloop]
  simp [dbClose, record]

/-- C5: when `deleteAllRows` returns, the table `test6.place` holds no rows,
whatever it held before; on that server a `getNumOfRows` that returns has
reported 0 and a `queryRows` that returns has printed no row, and both do
return when the driver reports no failure. -/
theorem deleteAllRows_empties_the_table (w w1 : World) (hret : deleteAllRows w = .ok () w1) :
    (∃ t, w1.server.table = some t ∧ t.rows = []) ∧
    (∀ v v1 : World, v.server = w1.server → getNumOfRows v = .ok () v1 →
      v1.stdout = v.stdout ++ "Num of rows in table:  0\n" ++ pressAnyKey ++ "\n") ∧
    (∀ v v1 : World, v.server = w1.server → queryRows v = .ok () v1 →
      v1.stdout = v.stdout ++ pressAnyKey ++ "\n") ∧
    (∀ v : World, v.server = w1.server → Quiet v.faults →
      (∃ v1, getNumOfRows v = .ok () v1) ∧ (∃ v1, queryRows v = .ok () v1)) := by
  obtain ⟨t0, -, hs⟩ := deleteAllRows_ok w w1 hret
  refine ⟨⟨_, (table_iff _ _).mpr (by rw [hs]), rfl⟩, ?_, ?_, ?_⟩
  · intro v v1 hv hrun
    obtain ⟨t, ht, -, hout⟩ := getNumOfRows_ok v v1 hrun
    rw [hv, hs] at ht
    simp only [Option.some.injEq] at ht
    subst ht
    rw [hout]
    have h0 : toString (0 : Int) = "0" := by decide
    simp [String.append_assoc, h0]
  · intro v v1 hv hrun
    obtain ⟨t, ps, ht, -, hps, hout⟩ := queryRows_ok v v1 hrun
    rw [hv, hs] at ht
    simp only [Option.some.injEq] at ht
    subst ht
    have : ps = [] := by simpa using hps
    subst this
    rw [hout]
    simp [concatLines, String.append_assoc]
  · intro v hv hq
    have hsch : v.server.schema = some (some { rows := [], nextId := t0.nextId }) := by
      rw [hv, hs]
    refine ⟨getNumOfRows_quiet v _ hsch hq, ?_⟩
    obtain ⟨v1, h1, -⟩ := queryRows_quiet v _ [] hsch (by simp) hq
    exact ⟨v1, h1⟩

/-- Witness for C5: `deleteAllRows` on a table that holds one row. -/
theorem deleteAllRows_empties_the_table_witness :
    (∃ t, Database.table { schema := some (some { rows := [], nextId := 2 }) } = some t ∧
      t.rows = []) ∧
    (∀ v v1 : World, v.server = { schema := some (some { rows := [], nextId := 2 }) } →
      getNumOfRows v = .ok () v1 →
      v1.stdout = v.stdout ++ "Num of rows in table:  0\n" ++ pressAnyKey ++ "\n") ∧
    (∀ v v1 : World, v.server = { schema := some (some { rows := [], nextId := 2 }) } →
      queryRows v = .ok () v1 → v1.stdout = v.stdout ++ pressAnyKey ++ "\n") ∧
    (∀ v : World, v.server = { schema := some (some { rows := [], nextId := 2 }) } →
      Quiet v.faults → (∃ v1, getNumOfRows v = .ok () v1) ∧ (∃ v1, queryRows v = .ok () v1)) :=
  deleteAllRows_empties_the_table
    (World.start "cs" hongKong [] [])
    { World.start "cs" { schema := some (some { rows := [], nextId := 2 }) } [] [] with
      db := .closed
      trace := [.connect "postgres" "cs", .ping, .stmt .deleteAll, .close] }
    (by simp [deleteAllRows, World.start, hongKong, connect_run, pending, connected,
          dbMustExec_run, sent, Database.run, Database.table, withDefer, dbClose_run])

/-- C6: when `insertRowUsingStruct` returns, it has sent exactly one statement,
the INSERT bound to (`Germany`, `Berlin`, 49); the table holds the rows it held
before followed by exactly one new row with these values; and the
affected-row count written to the log is 1. -/
theorem insertRowUsingStruct_adds_one_row (w w1 : World)
    (hret : insertRowUsingStruct w = .ok () w1) :
    ∃ t, w.server.table = some t ∧
      w1.server.table = some
        { rows := t.rows ++
            [{ id := t.nextId, country := some "Germany", city := some "Berlin",
               telcode := some 49 }],
          nextId := t.nextId + 1 } ∧
      w1.trace = w.trace ++
        [.connect "postgres" w.connStr, .ping,
         .stmt (.insertNamed "Germany" "Berlin" 49), .close] ∧
      w1.logFile = w.logFile ++ ["affectedRow:  1"] := by
  unfold insertRowUsingStruct at hret
  rcases h0 : pending w.faults with _ | e0 <;>
  rcases h1 : pending w.faults.tail with _ | e1 <;>
  simp [h0, h1, connect_run] at hret
  rcases h2 : pending w.faults.tail.tail with _ | e2 <;>
  rcases h3 : w.server.schema with _ | _ | t <;>
  rcases h4 : pending w.faults.tail.tail.tail with _ | e4 <;>
  simp [h2, h3, h4, connected, sent, dbNamedExecInsert, dbExec_run, dbClose_run,
    Result.RowsAffected, nextFault, withDefer, logFatal, logPrintln,
    osExit, Database.run, Database.table, Reply.result] at hret
  subst hret
  refine ⟨t, (table_iff _ _).mpr h3, ?_, ?_, ?_⟩
  · simp [Database.table, Table.insert]
  · simp
  · have h1 : toString (1 : Nat) = "1" := by decide
    simp [String.append_assoc, h1]

/-- Witness for C6: `insertRowUsingStruct` on an empty table. -/
theorem insertRowUsingStruct_adds_one_row_witness :
    ∃ t, emptyTable.table = some t ∧
      Database.table { schema := some (some
          { rows := [{ id := 1, country := some "Germany", city := some "Berlin",
                       telcode := some 49 }],
            nextId := 2 }) } = some
        { rows := t.rows ++
            [{ id := t.nextId, country := some "Germany", city := some "Berlin",
               telcode := some 49 }],
          nextId := t.nextId + 1 } ∧
      [Event.connect "postgres" "cs", .ping,
         .stmt (.insertNamed "Germany" "Berlin" 49), .close] = [] ++
        [.connect "postgres" "cs", .ping,
         .stmt (.insertNamed "Germany" "Berlin" 49), .close] ∧
      ["affectedRow:  1"] = [] ++ ["affectedRow:  1"] :=
  insertRowUsingStruct_adds_one_row
    (World.start "cs" emptyTable [] [])
    { World.start "cs" { schema := some (some
          { rows := [{ id := 1, country := some "Germany", city := some "Berlin",
                       telcode := some 49 }],
            nextId := 2 }) } [] [] with
      db := .closed
      logFile := ["affectedRow:  1"]
      trace := [.connect "postgres" "cs", .ping,
        .stmt (.insertNamed "Germany" "Berlin" 49), .close] }
    (by
      have h1 : toString (1 : Nat) = "1" := by decide
      simp [insertRowUsingStruct, World.start, emptyTable, connect_run, pending, connected,
          dbNamedExecInsert, dbExec_run, sent, Database.run, Database.table, Table.insert,
          Result.RowsAffected, nextFault, Reply.result, logPrintln, withDefer, dbClose_run, h1])

/-- C4, the code at the failing input: one successful `insertRow` on an empty
table leaves five rows, and the `getNumOfRows` that follows reports 5. -/
theorem one_insertRow_is_counted_as_five :
    insertRow (World.start "cs" emptyTable [] []) =
      .ok () { World.start "cs" fiveRows [] [] with
        db := .closed
        trace := [.connect "postgres" "cs", .ping,
          .stmt (.insertCountryTelcode "Hong Kong" 852),
          .stmt (.insertCountryCityTelcode "Hungary" "Budapest" 36),
          .stmt (.insertCountryTelcode "Singapore" 65),
          .stmt (.insertCountryCityTelcode "Ukraine" "Kiyv" 38),
          .stmt (.insertCountryCityTelcode "South Africa" "Johannesburg" 27), .close] } ∧
    getNumOfRows (World.start "cs" fiveRows [] []) =
      .ok () { World.start "cs" fiveRows [] [] with
        db := .closed
        stdout := "Num of rows in table:  5\n\nSuccess. Press any key to continue...\n"
        trace := [.connect "postgres" "cs", .ping, .stmt .selectCount, .close] } := by
  constructor
  · simp [insertRow, World.start, emptyTable, fiveRows, connect_run, pending, connected,
      dbExec_run, dbMustExec_run, sent, Database.run, Database.table, Table.insert, withDefer,
      dbClose_run]
  · have h5 : toString (5 : Int) = "5" := by decide
    simp [getNumOfRows, World.start, fiveRows, connect_run, pending, connected, dbGetInt_run,
      sent, Database.run, Database.table, withDefer, fmtPrintln, fmtPrint, fmtScanln, setErr,
      dbClose_run, pressAnyKey, h5]

/-- C3, the code at the failing input: in `queryRows` (code 17) the fetch of
the first row fails, `rows.Next()` returns false, the loop ends, nothing is
logged, `Success` is printed and the operation returns; the command loop then
shows the menu again and runs until the user quits. -/
theorem queryRows_iteration_failure_returns_to_menu :
    dispatch 17 (World.start "cs" hongKong [none, none, none, some "unexpected EOF"] []) =
      .ok () { World.start "cs" hongKong [] [] with
        db := .closed
        stdout := "\nSuccess. Press any key to continue...\n"
        trace := [.connect "postgres" "cs", .ping, .stmt .selectAll, .close] } ∧
    (mainLoop 2 (World.start "cs" hongKong [none, none, none, some "unexpected EOF"]
        [.num 17, .other, .num 20])).map (fun r => (r.1, r.2.logFile, r.2.trace)) =
      some (.exit 0, [], [.connect "postgres" "cs", .ping, .stmt .selectAll, .close]) := by
  have hrun : ∀ (out : String) (inp : List Line) (c : Nat),
      dispatch 17 { World.start "cs" hongKong [none, none, none, some "unexpected EOF"] inp with
          stdout := out, choice := c } =
        .ok () { World.start "cs" hongKong [] inp.tail with
          db := .closed
          choice := c
          stdout := out ++ "\nSuccess. Press any key to continue...\n"
          trace := [.connect "postgres" "cs", .ping, .stmt .selectAll, .close] } := by
    intro out inp c
    simp [dispatch, queryRows, World.start, hongKong, connect_run, pending, connected,
      dbQueryx_run, sent, Database.run, Database.table, withDefer, queryRowsLoop, rowsNext,
      nextFault, fmtPrintln, fmtPrint, fmtScanln, dbClose_run, pressAnyKey]
  constructor
  · have := hrun "" [] 0
    simpa [World.start] using this
  · have hp : prompt (World.start "cs" hongKong [none, none, none, some "unexpected EOF"]
        [.num 17, .other, .num 20]) =
        .ok 17 { World.start "cs" hongKong [none, none, none, some "unexpected EOF"]
            [.other, .num 20] with
          stdout := "\x1b[2J" ++ "\x1b[H" ++ (menuText ++ "\n") ++ "Select 10..20: " ++ "\n"
          choice := 17 } := by
      simp [prompt, screenClear, screenMoveTopLeft, menu, fmtPrint, fmtPrintln, fmtScanlnUint8,
        setChoice, World.start]
    rw [mainLoop_continue _ _ _ 17 1 hp (hrun _ _ _)]
    simp [mainLoop, loopBody_eq, prompt, screenClear, screenMoveTopLeft, menu, fmtPrint,
      fmtPrintln, fmtScanlnUint8, setChoice, World.start, dispatch, osExit]

/-! ## The printed rows -/

theorem structScan_ok (r : Row) (p : Place) (h : structScan r = .ok p) :
    r.country = some p.Country ∧ r.telcode = some p.TelephoneCode ∧ p.city = r.city := by
  rcases hc : r.country with _ | country <;>
  rcases ht : r.telcode with _ | telcode <;>
  rcases hci : r.city with _ | city <;>
  simp [structScan, hc, ht, hci] at h <;>
  subst h <;> simp [Place.city]

theorem rowLine_of_scan (r : Row) (p : Place) (h : structScan r = .ok p) :
    rowLine r = some (placeLine p) := by
  obtain ⟨hc, ht, hci⟩ := structScan_ok r p h
  simp [rowLine, placeLine, hc, ht, hci]

theorem rowLines_of_scans (rows : List Row) :
    ∀ ps : List Place, rows.map structScan = ps.map Except.ok →
      rows.map rowLine = (ps.map placeLine).map some := by
  induction rows with
  | nil => intro ps h; cases ps <;> simp at h ⊢
  | cons r rest ih =>
      intro ps h
      cases ps with
      | nil => simp at h
      | cons p ps =>
          simp only [List.map_cons, List.cons.injEq] at h
          simp [rowLine_of_scan r p h.1, ih ps h.2]

theorem scans_of_rowLines (rows : List Row) :
    ∀ lines : List String, rows.map rowLine = lines.map some →
      ∃ ps : List Place, rows.map structScan = ps.map Except.ok ∧ ps.map placeLine = lines := by
  induction rows with
  | nil => intro lines h; cases lines <;> simp at h ⊢
  | cons r rest ih =>
      intro lines h
      cases lines with
      | nil => simp at h
      | cons l ls =>
          simp only [List.map_cons, List.cons.injEq] at h
          obtain ⟨ps, hps, hls⟩ := ih ls h.2
          have hl : rowLine r = some l := h.1
          have hp : ∃ p, structScan r = .ok p := by
            rcases hc : r.country with _ | country <;>
            rcases ht : r.telcode with _ | telcode <;>
            simp [rowLine, structScan, hc, ht] at hl ⊢
          obtain ⟨p, hp⟩ := hp
          refine ⟨p :: ps, by simp [hp, hps], ?_⟩
          rw [rowLine_of_scan r p hp] at hl
          simp only [Option.some.injEq] at hl
          simp [hl, hls]

/-- When `queryRow` returns, it has printed the line of the first row whose
telcode is 852. -/
theorem queryRow_ok (w w1 : World) (h : queryRow w = .ok () w1) :
    ∃ (t : Table) (r : Row) (p : Place), w.server.schema = some (some t) ∧
      (t.rows.filter (fun r => decide (r.telcode = some 852))).head? = some r ∧
      structScan r = .ok p ∧
      w1.stdout = w.stdout ++ placeLine p ++ (pressAnyKey ++ "\n") := by
  unfold queryRow at h
  rcases h0 : pending w.faults with _ | e0 <;>
  rcases h1 : pending w.faults.tail with _ | e1 <;>
  simp [h0, h1, connect_run] at h
  rcases h2 : pending w.faults.tail.tail with _ | e2
  swap
  · simp [h2, connected, sent, dbGetPlace_run, withDefer, logFatal, logPrintln, osExit] at h
  rcases h3 : w.server.schema with _ | _ | t
  · simp [h2, h3, connected, sent, dbGetPlace_run, withDefer, logFatal, logPrintln, osExit,
      Database.run, Database.table] at h
  · simp [h2, h3, connected, sent, dbGetPlace_run, withDefer, logFatal, logPrintln, osExit,
      Database.run, Database.table] at h
  rcases h4 : t.rows.filter (fun r => decide (r.telcode = some 852)) with _ | ⟨r, rs⟩
  · simp [h2, h3, h4, connected, sent, dbGetPlace_run, withDefer, logFatal, logPrintln, osExit,
      Database.run, Database.table] at h
  rcases h5 : structScan r with e | p
  · simp [h2, h3, h4, h5, connected, sent, dbGetPlace_run, withDefer, logFatal, logPrintln,
      osExit, Database.run, Database.table] at h
  refine ⟨t, r, p, rfl, by rw [h4]; rfl, h5, ?_⟩
  rw [← print_line]
  rcases h6 : p.City.Valid <;>
  simp [h2, h3, h4, h5, h6, connected, sent, dbGetPlace_run, dbClose_run, withDefer, fmtPrint,
    fmtPrintln, fmtScanln, Database.run, Database.table] at h <;>
  subst h <;>
  simp [String.append_assoc]

theorem queryRow_quiet (w : World) (t : Table) (r : Row) (p : Place)
    (hs : w.server.schema = some (some t))
    (hr : (t.rows.filter (fun r => decide (r.telcode = some 852))).head? = some r)
    (hp : structScan r = .ok p) (hq : Quiet w.faults) : ∃ w1, queryRow w = .ok () w1 := by
  unfold queryRow
  have h0 := hq.pending
  have h1 := hq.tail.pending
  have h2 := hq.tail.tail.pending
  rcases h4 : t.rows.filter (fun r => decide (r.telcode = some 852)) with _ | ⟨r2, rs⟩
  · simp [h4] at hr
  simp [h4] at hr
  subst hr
  rcases h6 : p.City.Valid <;>
  simp [h0, h1, h2, hs, h4, hp, h6, connect_run, connected, sent, dbGetPlace_run, dbClose_run,
    withDefer, fmtPrint, fmtPrintln, fmtScanln, Database.run, Database.table]

/-- When `insertRow` returns, the table existed and holds five more rows. -/
theorem insertRow_ok (w w1 : World) (h : insertRow w = .ok () w1) :
    ∃ t, w.server.schema = some (some t) ∧
      w1.server = { schema := some (some
        { rows := t.rows ++
            [{ id := t.nextId, country := some "Hong Kong", city := none, telcode := some 852 },
             { id := t.nextId + 1, country := some "Hungary", city := some "Budapest",
               telcode := some 36 },
             { id := t.nextId + 2, country := some "Singapore", city := none,
               telcode := some 65 },
             { id := t.nextId + 3, country := some "Ukraine", city := some "Kiyv",
               telcode := some 38 },
             { id := t.nextId + 4, country := some "South Africa",
               city := some "Johannesburg", telcode := some 27 }],
          nextId := t.nextId + 5 }) } := by
  unfold insertRow at h
  rcases h0 : pending w.faults with _ | e0 <;>
  rcases h1 : pending w.faults.tail with _ | e1 <;>
  simp [h0, h1, connect_run] at h
  rcases h2 : pending w.faults.tail.tail with _ | e2
  swap
  · simp [h2, connected, sent, dbExec_run, withDefer, logFatal, logPrintln, osExit] at h
  rcases h3 : w.server.schema with _ | _ | t
  · simp [h2, h3, connected, sent, dbExec_run, withDefer, logFatal, logPrintln, osExit,
      Database.run, Database.table] at h
  · simp [h2, h3, connected, sent, dbExec_run, withDefer, logFatal, logPrintln, osExit,
      Database.run, Database.table] at h
  rcases h4 : pending w.faults.tail.tail.tail with _ | e4 <;>
  rcases h5 : pending w.faults.tail.tail.tail.tail with _ | e5 <;>
  rcases h6 : pending w.faults.tail.tail.tail.tail.tail with _ | e6 <;>
  rcases h7 : pending w.faults.tail.tail.tail.tail.tail.tail with _ | e7 <;>
  simp [h2, h3, h4, h5, h6, h7, connected, sent, dbExec_run, dbMustExec_run, dbClose_run,
    withDefer, logFatal, logPrintln, osExit, Database.run, Database.table, Table.insert] at h
  subst h
  exact ⟨t, rfl, by simp⟩

/-- C7: `queryRow` and `queryRows` print, for every row they fetch, the line
`<country>, N.A, <telcode>` when the city is NULL and
`<country>, <city>, <telcode>` when it is not: when `queryRow` returns it has
printed that line for the first row with telcode 852; when `queryRows` returns
it has printed these lines for a leading part of the rows, and for all rows
when the driver reports no failure; and after an `insertRow` on an empty
table, `queryRow` prints `Hong Kong, N.A, 852`. -/
theorem fetched_rows_are_printed_with_NA_for_null_city (w w1 : World)
    (hret : queryRow w = .ok () w1) :
    (∀ (country : String) (telcode : Int),
      specLine country none telcode = country ++ ", N.A, " ++ toString telcode) ∧
    (∀ (country city : String) (telcode : Int),
      specLine country (some city) telcode =
        country ++ ", " ++ city ++ ", " ++ toString telcode) ∧
    (∃ (t : Table) (r : Row) (country : String) (telcode : Int), w.server.table = some t ∧
      (t.rows.filter (fun r => decide (r.telcode = some 852))).head? = some r ∧
      r.country = some country ∧ r.telcode = some telcode ∧
      w1.stdout = w.stdout ++ specLine country r.city telcode ++ "\n" ++ pressAnyKey ++ "\n") ∧
    (∀ v v1 : World, queryRows v = .ok () v1 →
      ∃ (t : Table) (fetched : List Row) (lines : List String), v.server.table = some t ∧
        fetched <+: t.rows ∧ fetched.map rowLine = lines.map some ∧
        v1.stdout = v.stdout ++ concatLines lines ++ pressAnyKey ++ "\n") ∧
    (∀ (v : World) (t : Table) (lines : List String), v.server.table = some t →
      t.rows.map rowLine = lines.map some → Quiet v.faults →
      ∃ v1, queryRows v = .ok () v1 ∧
        v1.stdout = v.stdout ++ concatLines lines ++ pressAnyKey ++ "\n") ∧
    (∀ (u u1 : World) (n : Nat), u.server.table = some { rows := [], nextId := n } →
      insertRow u = .ok () u1 → ∀ v : World, v.server = u1.server →
        (∀ v1, queryRow v = .ok () v1 →
          v1.stdout = v.stdout ++ "Hong Kong, N.A, 852\n" ++ pressAnyKey ++ "\n") ∧
        (Quiet v.faults → ∃ v1, queryRow v = .ok () v1)) := by
  refine ⟨fun _ _ => rfl, fun _ _ _ => rfl, ?_, ?_, ?_, ?_⟩
  · obtain ⟨t, r, p, hs, hr, hp, hout⟩ := queryRow_ok w w1 hret
    obtain ⟨hc, ht, hci⟩ := structScan_ok r p hp
    refine ⟨t, r, p.Country, p.TelephoneCode, (table_iff _ _).mpr hs, hr, hc, ht, ?_⟩
    rw [hout, ← hci]
    simp [placeLine, String.append_assoc]
  · intro v v1 hv
    obtain ⟨t, ps, hs, -, hps, hout⟩ := queryRows_ok v v1 hv
    refine ⟨t, t.rows.take ps.length, ps.map placeLine, (table_iff _ _).mpr hs,
      List.take_prefix _ _, ?_, ?_⟩
    · apply rowLines_of_scans
      have := List.prefix_iff_eq_take.mp hps
      rw [List.map_take]
      simpa using this.symm
    · rw [hout]
      simp [String.append_assoc]
  · intro v t lines hs hlines hq
    obtain ⟨ps, hps, hpl⟩ := scans_of_rowLines t.rows lines hlines
    obtain ⟨v1, hrun, hout⟩ := queryRows_quiet v t ps ((table_iff _ _).mp hs) hps hq
    refine ⟨v1, hrun, ?_⟩
    rw [hout, hpl]
    simp [String.append_assoc]
  · intro u u1 n hu hins v hv
    obtain ⟨t, hts, hserver⟩ := insertRow_ok u u1 hins
    have := (table_iff _ _).mp hu
    rw [this] at hts
    simp only [Option.some.injEq] at hts
    subst hts
    have hvs : v.server.schema = some (some
        { rows := [] ++
            [{ id := n, country := some "Hong Kong", city := none, telcode := some 852 },
             { id := n + 1, country := some "Hungary", city := some "Budapest",
               telcode := some 36 },
             { id := n + 2, country := some "Singapore", city := none, telcode := some 65 },
             { id := n + 3, country := some "Ukraine", city := some "Kiyv",
               telcode := some 38 },
             { id := n + 4, country := some "South Africa", city := some "Johannesburg",
               telcode := some 27 }],
          nextId := n + 5 }) := by
      rw [hv, hserver]
    have h852 : toString (852 : Int) = "852" := by decide
    constructor
    · intro v1 hq
      obtain ⟨t, r, p, hs, hr, hp, hout⟩ := queryRow_ok v v1 hq
      rw [hvs] at hs
      simp only [Option.some.injEq] at hs
      subst hs
      simp [List.filter] at hr
      subst hr
      simp [structScan] at hp
      subst hp
      rw [hout]
      simp [placeLine, specLine, Place.city, String.append_assoc, h852]
    · intro hq
      exact queryRow_quiet v _
        { id := n, country := some "Hong Kong", city := none, telcode := some 852 }
        { Id := n, Country := "Hong Kong", City := { Str := "", Valid := false },
          TelephoneCode := 852 }
        hvs (by simp [List.filter]) (by simp [structScan]) hq

/-- Witness for C7: `queryRow` on a table that holds the row (`Hong Kong`,
NULL, 852). -/
theorem fetched_rows_are_printed_with_NA_for_null_city_witness :
    ∃ (t : Table) (r : Row) (country : String) (telcode : Int), hongKong.table = some t ∧
      (t.rows.filter (fun r => decide (r.telcode = some 852))).head? = some r ∧
      r.country = some country ∧ r.telcode = some telcode ∧
      "Hong Kong, N.A, 852\n\nSuccess. Press any key to continue...\n" =
        "" ++ specLine country r.city telcode ++ "\n" ++ pressAnyKey ++ "\n" :=
  (fetched_rows_are_printed_with_NA_for_null_city
    (World.start "cs" hongKong [] [])
    { World.start "cs" hongKong [] [] with
      db := .closed
      stdout := "Hong Kong, N.A, 852\n\nSuccess. Press any key to continue...\n"
      trace := [.connect "postgres" "cs", .ping, .stmt (.selectWhereTelcode 852), .close] }
    (by
      have h852 : toString (852 : Int) = "852" := by decide
      simp [queryRow, World.start, hongKong, connect_run, pending, connected, dbGetPlace_run,
        sent, Database.run, Database.table, structScan, withDefer, fmtPrintln, fmtPrint,
        fmtScanln, dbClose_run, pressAnyKey, h852])).2.2.1

/-- Witness for C2: code 13, `create table`. -/
theorem each_menu_code_runs_its_operation_witness :
    ∃ label, (13, label) ∈ menuEntries ∧ labelledOperation label = some (dispatch 13) :=
  (each_menu_code_runs_its_operation 13 (by decide) (by decide)).2.1

/-! ### Which failure gives which end -/

theorem createSchema_failure (w : World) (h0 : pending w.faults = none)
    (h1 : pending w.faults.tail = none) (how : Option String) (e : String)
    (hf : firstFailure (statements 11) w.faults.tail.tail w.server = some (how, e)) :
    how = some "func createSchema failed - " ∧
    ∃ w1, dispatch 11 w = .halt (.exit 1) w1 ∧
      w1.logFile = w.logFile ++ ["func createSchema failed - " ++ e] := by
  rcases h2 : pending w.faults.tail.tail with _ | e2 <;>
  rcases h3 : w.server.schema with _ | sc <;>
  simp [statements, firstFailure, h2, h3, Database.run] at hf <;>
  obtain ⟨rfl, rfl⟩ := hf <;>
  simp [dispatch, createSchema, connect_run, h0, h1, h2, h3, connected, sent, dbExec_run,
    withDefer, logFatal, logPrintln, osExit, Database.run]

theorem selectSchema_failure (w : World) (h0 : pending w.faults = none)
    (h1 : pending w.faults.tail = none) (how : Option String) (e : String)
    (hf : firstFailure (statements 12) w.faults.tail.tail w.server = some (how, e)) :
    how = none ∧ ∃ w1, dispatch 12 w = .halt (.panic e) w1 ∧ w1.logFile = w.logFile := by
  rcases h2 : pending w.faults.tail.tail with _ | e2
  · simp [statements, firstFailure, h2, Database.run] at hf
  · simp [statements, firstFailure, h2, Database.run] at hf
    obtain ⟨rfl, rfl⟩ := hf
    simp [dispatch, selectSchema, connect_run, h0, h1, h2, connected, sent, dbMustExec_run,
      dbClose_run, withDefer, Database.run]

theorem createTable_failure (w : World) (h0 : pending w.faults = none)
    (h1 : pending w.faults.tail = none) (how : Option String) (e : String)
    (hf : firstFailure (statements 13) w.faults.tail.tail w.server = some (how, e)) :
    how = some "func createTable failed - " ∧
    ∃ w1, dispatch 13 w = .halt (.exit 1) w1 ∧
      w1.logFile = w.logFile ++ ["func createTable failed - " ++ e] := by
  rcases h2 : pending w.faults.tail.tail with _ | e2 <;>
  rcases h3 : w.server.schema with _ | _ | t <;>
  simp [statements, firstFailure, h2, h3, Database.run] at hf <;>
  obtain ⟨rfl, rfl⟩ := hf <;>
  simp [dispatch, createTable, connect_run, h0, h1, h2, h3, connected, sent, dbExec_run,
    withDefer, logFatal, logPrintln, osExit, Database.run]

theorem insertRowUsingStruct_failure (w : World) (h0 : pending w.faults = none)
    (h1 : pending w.faults.tail = none) (how : Option String) (e : String)
    (hf : firstFailure (statements 15) w.faults.tail.tail w.server = some (how, e)) :
    how = some "func insertRowUsingStruct failed (NamedExec)- " ∧
    ∃ w1, dispatch 15 w = .halt (.exit 1) w1 ∧
      w1.logFile = w.logFile ++ ["func insertRowUsingStruct failed (NamedExec)- " ++ e] := by
  rcases h2 : pending w.faults.tail.tail with _ | e2 <;>
  rcases h3 : w.server.schema with _ | _ | t <;>
  simp [statements, firstFailure, h2, h3, Database.run, Database.table] at hf <;>
  obtain ⟨rfl, rfl⟩ := hf <;>
  simp [dispatch, insertRowUsingStruct, dbNamedExecInsert, connect_run, h0, h1, h2, h3,
    connected, sent, dbExec_run, withDefer, logFatal, logPrintln, osExit, Database.run,
    Database.table]

theorem queryRow_failure (w : World) (h0 : pending w.faults = none)
    (h1 : pending w.faults.tail = none) (how : Option String) (e : String)
    (hf : firstFailure (statements 16) w.faults.tail.tail w.server = some (how, e)) :
    how = some "func queryRow failed - " ∧
    ∃ w1, dispatch 16 w = .halt (.exit 1) w1 ∧
      w1.logFile = w.logFile ++ ["func queryRow failed - " ++ e] := by
  rcases h2 : pending w.faults.tail.tail with _ | e2 <;>
  rcases h3 : w.server.schema with _ | _ | t <;>
  simp [statements, firstFailure, h2, h3, Database.run, Database.table] at hf <;>
  obtain ⟨rfl, rfl⟩ := hf <;>
  simp [dispatch, queryRow, connect_run, h0, h1, h2, h3, connected, sent, dbGetPlace_run,
    withDefer, logFatal, logPrintln, osExit, Database.run, Database.table]

theorem queryRows_failure (w : World) (h0 : pending w.faults = none)
    (h1 : pending w.faults.tail = none) (how : Option String) (e : String)
    (hf : firstFailure (statements 17) w.faults.tail.tail w.server = some (how, e)) :
    how = some "func query failed - " ∧
    ∃ w1, dispatch 17 w = .halt (.exit 1) w1 ∧
      w1.logFile = w.logFile ++ ["func query failed - " ++ e] := by
  rcases h2 : pending w.faults.tail.tail with _ | e2 <;>
  rcases h3 : w.server.schema with _ | _ | t <;>
  simp [statements, firstFailure, h2, h3, Database.run, Database.table] at hf <;>
  obtain ⟨rfl, rfl⟩ := hf <;>
  simp [dispatch, queryRows, connect_run, h0, h1, h2, h3, connected, sent, dbQueryx_run,
    withDefer, logFatal, logPrintln, osExit, Database.run, Database.table]

theorem getNumOfRows_failure (w : World) (h0 : pending w.faults = none)
    (h1 : pending w.faults.tail = none) (how : Option String) (e : String)
    (hf : firstFailure (statements 18) w.faults.tail.tail w.server = some (how, e)) :
    how = some "func getNumOfRows failed - " ∧
    ∃ w1, dispatch 18 w = .halt (.exit 1) w1 ∧
      w1.logFile = w.logFile ++ ["func getNumOfRows failed - " ++ e] := by
  rcases h2 : pending w.faults.tail.tail with _ | e2 <;>
  rcases h3 : w.server.schema with _ | _ | t <;>
  simp [statements, firstFailure, h2, h3, Database.run, Database.table] at hf <;>
  obtain ⟨rfl, rfl⟩ := hf <;>
  simp [dispatch, getNumOfRows, connect_run, h0, h1, h2, h3, connected, sent, dbGetInt_run,
    withDefer, logFatal, logPrintln, osExit, setErr, Database.run, Database.table]

theorem deleteAllRows_failure (w : World) (h0 : pending w.faults = none)
    (h1 : pending w.faults.tail = none) (how : Option String) (e : String)
    (hf : firstFailure (statements 19) w.faults.tail.tail w.server = some (how, e)) :
    how = none ∧ ∃ w1, dispatch 19 w = .halt (.panic e) w1 ∧ w1.logFile = w.logFile := by
  rcases h2 : pending w.faults.tail.tail with _ | e2 <;>
  rcases h3 : w.server.schema with _ | _ | t <;>
  simp [statements, firstFailure, h2, h3, Database.run, Database.table] at hf <;>
  obtain ⟨rfl, rfl⟩ := hf <;>
  simp [dispatch, deleteAllRows, connect_run, h0, h1, h2, h3, connected, sent, dbMustExec_run,
    dbClose_run, withDefer, Database.run, Database.table]

theorem insertRow_failure (w : World) (h0 : pending w.faults = none)
    (h1 : pending w.faults.tail = none) (how : Option String) (e : String)
    (hf : firstFailure (statements 14) w.faults.tail.tail w.server = some (how, e)) :
    ∃ w1, dispatch 14 w = .halt (failureEnd how e) w1 ∧
      w1.logFile = failureLog how e w.logFile := by
  rcases h2 : pending w.faults.tail.tail with _ | e2
  swap
  · simp [statements, firstFailure, Database.run, Database.table, h2] at hf
    obtain ⟨rfl, rfl⟩ := hf
    simp [failureEnd, failureLog, h2, dispatch, insertRow, connect_run, h0, h1, connected, sent, dbExec_run,
      dbMustExec_run, dbClose_run, withDefer, logFatal, logPrintln, osExit, Database.run,
      Database.table]
  rcases h3 : w.server.schema with _ | _ | t
  · simp [statements, firstFailure, Database.run, Database.table, h2, h3] at hf
    obtain ⟨rfl, rfl⟩ := hf
    simp [failureEnd, failureLog, h2, h3, dispatch, insertRow, connect_run, h0, h1, connected, sent, dbExec_run,
      dbMustExec_run, dbClose_run, withDefer, logFatal, logPrintln, osExit, Database.run,
      Database.table]
  · simp [statements, firstFailure, Database.run, Database.table, h2, h3] at hf
    obtain ⟨rfl, rfl⟩ := hf
    simp [failureEnd, failureLog, h2, h3, dispatch, insertRow, connect_run, h0, h1, connected, sent, dbExec_run,
      dbMustExec_run, dbClose_run, withDefer, logFatal, logPrintln, osExit, Database.run,
      Database.table]
  rcases h4 : pending w.faults.tail.tail.tail with _ | e4
  swap
  · simp [statements, firstFailure, Database.run, Database.table, h2, h3, h4] at hf
    obtain ⟨rfl, rfl⟩ := hf
    simp [failureEnd, failureLog, h2, h3, h4, dispatch, insertRow, connect_run, h0, h1, connected, sent, dbExec_run,
      dbMustExec_run, dbClose_run, withDefer, logFatal, logPrintln, osExit, Database.run,
      Database.table]
  rcases h5 : pending w.faults.tail.tail.tail.tail with _ | e5
  swap
  · simp [statements, firstFailure, Database.run, Database.table, h2, h3, h4, h5] at hf
    obtain ⟨rfl, rfl⟩ := hf
    simp [failureEnd, failureLog, h2, h3, h4, h5, dispatch, insertRow, connect_run, h0, h1, connected, sent, dbExec_run,
      dbMustExec_run, dbClose_run, withDefer, logFatal, logPrintln, osExit, Database.run,
      Database.table]
  rcases h6 : pending w.faults.tail.tail.tail.tail.tail with _ | e6
  swap
  · simp [statements, firstFailure, Database.run, Database.table, h2, h3, h4, h5, h6] at hf
    obtain ⟨rfl, rfl⟩ := hf
    simp [failureEnd, failureLog, h2, h3, h4, h5, h6, dispatch, insertRow, connect_run, h0, h1, connected, sent, dbExec_run,
      dbMustExec_run, dbClose_run, withDefer, logFatal, logPrintln, osExit, Database.run,
      Database.table]
  rcases h7 : pending w.faults.tail.tail.tail.tail.tail.tail with _ | e7
  swap
  · simp [statements, firstFailure, Database.run, Database.table, h2, h3, h4, h5, h6, h7] at hf
    obtain ⟨rfl, rfl⟩ := hf
    simp [failureEnd, failureLog, h2, h3, h4, h5, h6, h7, dispatch, insertRow, connect_run, h0, h1, connected, sent, dbExec_run,
      dbMustExec_run, dbClose_run, withDefer, logFatal, logPrintln, osExit, Database.run,
      Database.table]
  simp [statements, firstFailure, Database.run, Database.table, h2, h3, h4, h5, h6, h7] at hf

/-- A failure of one of its statements ends an operation the way the code
treats that statement: `log.Fatal` with the message of the statement, or the
panic of `MustExec` without a message. -/
theorem statement_failure (c : Nat) (hlo : 10 ≤ c) (hhi : c ≤ 19) (w : World)
    (h0 : pending w.faults = none) (h1 : pending w.faults.tail = none)
    (how : Option String) (e : String)
    (hf : firstFailure (statements c) w.faults.tail.tail w.server = some (how, e)) :
    ∃ w1, dispatch c w = .halt (failureEnd how e) w1 ∧
      w1.logFile = failureLog how e w.logFile := by
  interval_cases c
  · simp [statements, firstFailure] at hf
  · obtain ⟨rfl, w1, hr, hl⟩ := createSchema_failure w h0 h1 how e hf
    exact ⟨w1, hr, hl⟩
  · obtain ⟨rfl, w1, hr, hl⟩ := selectSchema_failure w h0 h1 how e hf
    exact ⟨w1, hr, hl⟩
  · obtain ⟨rfl, w1, hr, hl⟩ := createTable_failure w h0 h1 how e hf
    exact ⟨w1, hr, hl⟩
  · exact insertRow_failure w h0 h1 how e hf
  · obtain ⟨rfl, w1, hr, hl⟩ := insertRowUsingStruct_failure w h0 h1 how e hf
    exact ⟨w1, hr, hl⟩
  · obtain ⟨rfl, w1, hr, hl⟩ := queryRow_failure w h0 h1 how e hf
    exact ⟨w1, hr, hl⟩
  · obtain ⟨rfl, w1, hr, hl⟩ := queryRows_failure w h0 h1 how e hf
    exact ⟨w1, hr, hl⟩
  · obtain ⟨rfl, w1, hr, hl⟩ := getNumOfRows_failure w h0 h1 how e hf
    exact ⟨w1, hr, hl⟩
  · obtain ⟨rfl, w1, hr, hl⟩ := deleteAllRows_failure w h0 h1 how e hf
    exact ⟨w1, hr, hl⟩

theorem firstFailure_mem (calls : List (Stmt × Option String)) :
    ∀ (fs : List (Option String)) (d : Database) (how : Option String) (e : String),
      firstFailure calls fs d = some (how, e) → ∃ s, (s, how) ∈ calls := by
  induction calls with
  | nil => intro fs d how e h; simp [firstFailure] at h
  | cons call rest ih =>
      intro fs d how e h
      obtain ⟨s, how0⟩ := call
      rcases hp : pending fs with _ | e0
      · rcases hr : d.run s with e1 | ⟨d1, r⟩
        · simp [firstFailure, hp, hr] at h
          exact ⟨s, by simp [h.1]⟩
        · simp [firstFailure, hp, hr] at h
          obtain ⟨s2, hs2⟩ := ih _ _ _ _ h
          exact ⟨s2, List.mem_cons_of_mem _ hs2⟩
      · simp [firstFailure, hp] at h
        exact ⟨s, by simp [h.1]⟩

/-- The messages of the checked statements start with the name of the
operation, those of `queryRows` apart; only `selectSchema`, `insertRow` and
`deleteAllRows` send a statement with `MustExec`. -/
theorem statements_named (c : Nat) (hlo : 10 ≤ c) (hhi : c ≤ 19) (s : Stmt)
    (how : Option String) (hmem : (s, how) ∈ statements c) :
    (∀ pre, how = some pre → c ≠ 17 → ∃ rest, pre = "func " ++ opName c ++ " failed" ++ rest) ∧
    (how = none → c = 12 ∨ c = 14 ∨ c = 19) := by
  interval_cases c <;> simp [statements] at hmem
  · obtain ⟨-, rfl⟩ := hmem
    exact ⟨fun pre hp _ => by cases hp; exact ⟨" - ", rfl⟩, by simp⟩
  · obtain ⟨-, rfl⟩ := hmem
    simp
  · obtain ⟨-, rfl⟩ := hmem
    exact ⟨fun pre hp _ => by cases hp; exact ⟨" - ", rfl⟩, by simp⟩
  · rcases hmem with ⟨-, rfl⟩ | ⟨-, rfl⟩ | ⟨-, rfl⟩ | ⟨-, rfl⟩ | ⟨-, rfl⟩
    · exact ⟨fun pre hp _ => by cases hp; exact ⟨" (Hong Kong) - ", rfl⟩, by simp⟩
    · simp
    · exact ⟨fun pre hp _ => by cases hp; exact ⟨" (Singapore) - ", rfl⟩, by simp⟩
    · simp
    · exact ⟨fun pre hp _ => by cases hp; exact ⟨" (South Africa) - ", rfl⟩, by simp⟩
  · obtain ⟨-, rfl⟩ := hmem
    exact ⟨fun pre hp _ => by cases hp; exact ⟨" (NamedExec)- ", rfl⟩, by simp⟩
  · obtain ⟨-, rfl⟩ := hmem
    exact ⟨fun pre hp _ => by cases hp; exact ⟨" - ", rfl⟩, by simp⟩
  · obtain ⟨-, rfl⟩ := hmem
    exact ⟨fun pre _ hc => absurd rfl hc, by simp⟩
  · obtain ⟨-, rfl⟩ := hmem
    exact ⟨fun pre hp _ => by cases hp; exact ⟨" - ", rfl⟩, by simp⟩
  · obtain ⟨-, rfl⟩ := hmem
    simp

theorem connect_failure (c : Nat) (hlo : 10 ≤ c) (hhi : c ≤ 19) (w : World) (e : String)
    (h0 : pending w.faults = some e) :
    ∃ w1, dispatch c w = .halt (.panic ("Failed to connect to the database: " ++ e)) w1 ∧
      w1.logFile = w.logFile ++ ["Failed to connect to the database: " ++ e] := by
  interval_cases c <;>
  simp [dispatch, createSchema, selectSchema, createTable, insertRow, insertRowUsingStruct,
    queryRow, queryRows, getNumOfRows, deleteAllRows, connect_run, h0]

theorem ping_failure (c : Nat) (hlo : 10 ≤ c) (hhi : c ≤ 19) (w : World) (e : String)
    (h0 : pending w.faults = none) (h1 : pending w.faults.tail = some e) :
    ∃ w1, dispatch c w = .halt (.panic ("Failed to ping the database: " ++ e)) w1 ∧
      w1.logFile = w.logFile ++ ["Failed to ping the database: " ++ e] := by
  interval_cases c <;>
  simp [dispatch, createSchema, selectSchema, createTable, insertRow, insertRowUsingStruct,
    queryRow, queryRows, getNumOfRows, deleteAllRows, connect_run, h0, h1]

theorem rowsAffected_failure (w : World) (h0 : pending w.faults = none)
    (h1 : pending w.faults.tail = none)
    (hf : firstFailure (statements 15) w.faults.tail.tail w.server = none) (e : String)
    (h3 : pending w.faults.tail.tail.tail = some e) :
    ∃ w1, dispatch 15 w = .halt (.exit 1) w1 ∧
      w1.logFile = w.logFile ++ ["func insertRowUsingStruct failed (RowsAffected)- " ++ e] := by
  rcases h2 : pending w.faults.tail.tail with _ | e2 <;>
  rcases hs : w.server.schema with _ | _ | t <;>
  simp [statements, firstFailure, h2, hs, Database.run, Database.table] at hf
  simp [dispatch, insertRowUsingStruct, dbNamedExecInsert, connect_run, h0, h1, h2, h3, hs,
    connected, sent, dbExec_run, Result.RowsAffected, nextFault, withDefer, logFatal, logPrintln,
    osExit, Database.run, Database.table]

theorem get_failure (w : World) (h0 : pending w.faults = none)
    (h1 : pending w.faults.tail = none)
    (hf : firstFailure (statements 16) w.faults.tail.tail w.server = none) (t : Table)
    (e : String) (ht : w.server.table = some t)
    (hg : getFailure (t.rows.filter (fun r => decide (r.telcode = some 852))) = some e) :
    ∃ w1, dispatch 16 w = .halt (.exit 1) w1 ∧
      w1.logFile = w.logFile ++ ["func queryRow failed - " ++ e] := by
  have hs := (table_iff _ _).mp ht
  rcases h2 : pending w.faults.tail.tail with _ | e2 <;>
  simp [statements, firstFailure, h2, hs, Database.run, Database.table] at hf
  rcases h4 : t.rows.filter (fun r => decide (r.telcode = some 852)) with _ | ⟨r, rs⟩
  · simp [h4, getFailure] at hg
    subst hg
    simp [dispatch, queryRow, connect_run, h0, h1, h2, hs, h4, connected, sent, dbGetPlace_run,
      withDefer, logFatal, logPrintln, osExit, Database.run, Database.table]
  · rcases h5 : structScan r with e5 | p
    · simp [h4, h5, getFailure] at hg
      subst hg
      simp [dispatch, queryRow, connect_run, h0, h1, h2, hs, h4, h5, connected, sent,
        dbGetPlace_run, withDefer, logFatal, logPrintln, osExit, Database.run, Database.table]
    · simp [h4, h5, getFailure] at hg

theorem queryRowsLoop_scanFailure (rows : List Row) :
    ∀ (w : World) (e : String), scanFailure rows w.faults = some e →
      ∃ w1, queryRowsLoop rows w = .halt (.exit 1) w1 ∧
        w1.logFile = w.logFile ++ ["func query failed (rows.Next) - " ++ e] := by
  induction rows with
  | nil => intro w e h; simp [scanFailure] at h
  | cons r rest ih =>
      intro w e h
      rcases h0 : pending w.faults with _ | e0
      swap
      · simp [scanFailure, h0] at h
      rcases h1 : structScan r with e1 | p
      · simp [scanFailure, h0, h1] at h
        subst h
        simp [queryRowsLoop, rowsNext, nextFault, h0, h1, logFatal, logPrintln, osExit]
      simp [scanFailure, h0, h1] at h
      have hrun : queryRowsLoop (r :: rest) w =
          queryRowsLoop rest { w with faults := w.faults.tail, stdout := w.stdout ++ placeLine p } := by
        rw [← print_line]
        rcases hv : p.City.Valid <;>
        simp [queryRowsLoop, rowsNext, nextFault, h0, h1, hv, fmtPrint, fmtPrintln]
      rw [hrun]
      exact ih { w with faults := w.faults.tail, stdout := w.stdout ++ placeLine p } e h

theorem scan_failure (w : World) (h0 : pending w.faults = none)
    (h1 : pending w.faults.tail = none)
    (hf : firstFailure (statements 17) w.faults.tail.tail w.server = none) (t : Table)
    (e : String) (ht : w.server.table = some t)
    (hscan : scanFailure t.rows w.faults.tail.tail.tail = some e) :
    ∃ w1, dispatch 17 w = .halt (.exit 1) w1 ∧
      w1.logFile = w.logFile ++ ["func query failed (rows.Next) - " ++ e] := by
  have hs := (table_iff _ _).mp ht
  rcases h2 : pending w.faults.tail.tail with _ | e2 <;>
  simp [statements, firstFailure, h2, hs, Database.run, Database.table] at hf
  obtain ⟨w1, hl, hlog⟩ := queryRowsLoop_scanFailure t.rows
    { w with db := .opened, err := none, conns := w.conns + 1, faults := w.faults.tail.tail.tail,
             trace := w.trace ++ [.connect "postgres" w.connStr, .ping, .stmt .selectAll] }
    e hscan
  refine ⟨w1, ?_, hlog⟩
  have hd : dispatch 17 = queryRows := rfl
  rw [hd]
  simp only [queryRows, withDefer, bind_run, dbQueryx_run, h0, h1, h2, hs, connect_run,
    Database.run, Database.table, sent, connected, fmtPrintln, fmtPrint, fmtScanln,
    List.append_assoc, List.cons_append, List.nil_append, hl]

theorem queryRowsLoop_returns (rows : List Row) :
    ∀ w : World, scanFailure rows w.faults = none → ∃ w1, queryRowsLoop rows w = .ok () w1 := by
  induction rows with
  | nil =>
      intro w _
      rcases h0 : pending w.faults with _ | e0 <;>
      simp [queryRowsLoop, rowsNext, nextFault, h0]
  | cons r rest ih =>
      intro w h
      rcases h0 : pending w.faults with _ | e0
      swap
      · simp [queryRowsLoop, rowsNext, nextFault, h0]
      rcases h1 : structScan r with e1 | p
      · simp [scanFailure, h0, h1] at h
      simp [scanFailure, h0, h1] at h
      have hrun : queryRowsLoop (r :: rest) w =
          queryRowsLoop rest { w with faults := w.faults.tail, stdout := w.stdout ++ placeLine p } := by
        rw [← print_line]
        rcases hv : p.City.Valid <;>
        simp [queryRowsLoop, rowsNext, nextFault, h0, h1, hv, fmtPrint, fmtPrintln]
      rw [hrun]
      exact ih { w with faults := w.faults.tail, stdout := w.stdout ++ placeLine p } h

/-- An operation in which no driver call fails, the server rejects no
statement and every fetched row scans, returns. -/
theorem no_failure_returns (c : Nat) (hlo : 10 ≤ c) (hhi : c ≤ 19) (w : World)
    (h0 : pending w.faults = none) (h1 : pending w.faults.tail = none)
    (hf : firstFailure (statements c) w.faults.tail.tail w.server = none)
    (h15 : c = 15 → pending w.faults.tail.tail.tail = none)
    (h16 : c = 16 → ∀ t, w.server.table = some t →
      getFailure (t.rows.filter (fun r => decide (r.telcode = some 852))) = none)
    (h17 : c = 17 → ∀ t, w.server.table = some t →
      scanFailure t.rows w.faults.tail.tail.tail = none) :
    ∃ w1, dispatch c w = .ok () w1 := by
  interval_cases c
  · simp [dispatch, connect_run, h0, h1, connected, dbClose_run]
  · rcases h2 : pending w.faults.tail.tail with _ | e2 <;>
    rcases h3 : w.server.schema with _ | sc <;>
    simp [statements, firstFailure, h2, h3, Database.run] at hf <;>
    simp [dispatch, createSchema, connect_run, h0, h1, h2, h3, connected, sent, dbExec_run,
      dbClose_run, withDefer, fmtPrint, fmtScanln, Database.run]
  · rcases h2 : pending w.faults.tail.tail with _ | e2
    · simp [dispatch, selectSchema, connect_run, h0, h1, h2, connected, sent, dbMustExec_run,
        dbClose_run, withDefer, Database.run]
    · simp [statements, firstFailure, h2, Database.run] at hf
  · rcases h2 : pending w.faults.tail.tail with _ | e2 <;>
    rcases h3 : w.server.schema with _ | _ | t <;>
    simp [statements, firstFailure, h2, h3, Database.run] at hf <;>
    simp [dispatch, createTable, connect_run, h0, h1, h2, h3, connected, sent, dbExec_run,
      dbClose_run, withDefer, fmtPrint, fmtPrintln, fmtScanln, Database.run]
  · rcases h3 : w.server.schema with _ | _ | t <;>
    rcases h2 : pending w.faults.tail.tail with _ | e2 <;>
    simp [statements, firstFailure, h2, h3, Database.run, Database.table] at hf
    rcases h4 : pending w.faults.tail.tail.tail with _ | e4 <;>
    simp [h4] at hf
    rcases h5 : pending w.faults.tail.tail.tail.tail with _ | e5 <;>
    simp [h5] at hf
    rcases h6 : pending w.faults.tail.tail.tail.tail.tail with _ | e6 <;>
    simp [h6] at hf
    rcases h7 : pending w.faults.tail.tail.tail.tail.tail.tail with _ | e7 <;>
    simp [h7] at hf
    simp [dispatch, insertRow, connect_run, h0, h1, h2, h3, h4, h5, h6, h7, connected, sent,
      dbExec_run, dbMustExec_run, dbClose_run, withDefer, Database.run, Database.table]
  · have h4 := h15 rfl
    rcases h2 : pending w.faults.tail.tail with _ | e2 <;>
    rcases h3 : w.server.schema with _ | _ | t <;>
    simp [statements, firstFailure, h2, h3, Database.run, Database.table] at hf
    simp [dispatch, insertRowUsingStruct, dbNamedExecInsert, connect_run, h0, h1, h2, h3, h4,
      connected, sent, dbExec_run, dbClose_run, Result.RowsAffected, nextFault, withDefer,
      logPrintln, Database.run, Database.table]
  · rcases h2 : pending w.faults.tail.tail with _ | e2 <;>
    rcases h3 : w.server.schema with _ | _ | t <;>
    simp [statements, firstFailure, h2, h3, Database.run, Database.table] at hf
    have hg := h16 rfl t ((table_iff _ _).mpr h3)
    rcases h4 : t.rows.filter (fun r => decide (r.telcode = some 852)) with _ | ⟨r, rs⟩
    · simp [h4, getFailure] at hg
    rcases h5 : structScan r with e5 | p
    · simp [h4, h5, getFailure] at hg
    rcases h6 : p.City.Valid <;>
    simp [dispatch, queryRow, connect_run, h0, h1, h2, h3, h4, h5, h6, connected, sent,
      dbGetPlace_run, dbClose_run, withDefer, fmtPrint, fmtPrintln, fmtScanln, Database.run,
      Database.table]
  · rcases h2 : pending w.faults.tail.tail with _ | e2 <;>
    rcases h3 : w.server.schema with _ | _ | t <;>
    simp [statements, firstFailure, h2, h3, Database.run, Database.table] at hf
    have hscan := h17 rfl t ((table_iff _ _).mpr h3)
    obtain ⟨w1, hl⟩ := queryRowsLoop_returns t.rows
      { w with db := .opened, err := none, conns := w.conns + 1,
               faults := w.faults.tail.tail.tail,
               trace := w.trace ++ [.connect "postgres" w.connStr, .ping, .stmt .selectAll] }
      hscan
    have post := queryRowsLoop_post t.rows
      { w with db := .opened, err := none, conns := w.conns + 1,
               faults := w.faults.tail.tail.tail,
               trace := w.trace ++ [.connect "postgres" w.connStr, .ping, .stmt .selectAll] }
    rw [hl] at post
    obtain ⟨-, -, a3, -⟩ := post
    dsimp only at a3
    have hd : dispatch 17 = queryRows := rfl
    rw [hd]
    simp only [queryRows, withDefer, bind_run, dbQueryx_run, h0, h1, h2, h3, connect_run,
      Database.run, Database.table, sent, connected, fmtPrintln, fmtPrint, fmtScanln,
      List.append_assoc, List.cons_append, List.nil_append, hl]
    simp [dbClose, record, a3]
  · rcases h2 : pending w.faults.tail.tail with _ | e2 <;>
    rcases h3 : w.server.schema with _ | _ | t <;>
    simp [statements, firstFailure, h2, h3, Database.run, Database.table] at hf
    simp [dispatch, getNumOfRows, connect_run, h0, h1, h2, h3, connected, sent, dbGetInt_run,
      dbClose_run, withDefer, fmtPrint, fmtPrintln, fmtScanln, setErr, Database.run,
      Database.table]
  · rcases h2 : pending w.faults.tail.tail with _ | e2 <;>
    rcases h3 : w.server.schema with _ | _ | t <;>
    simp [statements, firstFailure, h2, h3, Database.run, Database.table] at hf
    simp [dispatch, deleteAllRows, connect_run, h0, h1, h2, h3, connected, sent, dbMustExec_run,
      dbClose_run, withDefer, Database.run, Database.table]

/-- C10, amended: which failing call of an operation (menu codes 10..19) ends
the process in which way.  When `sqlx.Connect` fails, resp. `Ping`, the
process has logged `Failed to connect to the database: `, resp. `Failed to
ping the database: `, with the error text and panics with that message.  When
the connection stands and the first statement that fails (the driver fails
the call or the server rejects the statement) is one whose error the code
checks itself, the process has logged the message of that statement with the
error text and exits with status 1, and for every operation but `queryRows`
that message starts with `func <name of the operation> failed`; when it is a
statement sent with `MustExec` (only in `selectSchema`, `insertRow` and
`deleteAllRows`), the process panics with the error and has logged nothing.
When all statements go through, a failing `RowsAffected` in
`insertRowUsingStruct`, a `Get` without a row or with a row that does not scan
in `queryRow`, and a failing `StructScan` in `queryRows` are logged under
their messages and exit with status 1; when none of all these fails, the
operation returns.  Every halt of an operation is one of these ends. -/
theorem failure_is_logged_unless_mustExec (c : Nat) (hlo : 10 ≤ c) (hhi : c ≤ 19)
    (w : World) :
    (∀ e, pending w.faults = some e →
      ∃ w1, dispatch c w = .halt (.panic ("Failed to connect to the database: " ++ e)) w1 ∧
        w1.logFile = w.logFile ++ ["Failed to connect to the database: " ++ e]) ∧
    (∀ e, pending w.faults = none → pending w.faults.tail = some e →
      ∃ w1, dispatch c w = .halt (.panic ("Failed to ping the database: " ++ e)) w1 ∧
        w1.logFile = w.logFile ++ ["Failed to ping the database: " ++ e]) ∧
    (pending w.faults = none → pending w.faults.tail = none →
      (∀ pre e, firstFailure (statements c) w.faults.tail.tail w.server = some (some pre, e) →
        (∃ w1, dispatch c w = .halt (.exit 1) w1 ∧ w1.logFile = w.logFile ++ [pre ++ e]) ∧
        (c ≠ 17 → ∃ rest, pre = "func " ++ opName c ++ " failed" ++ rest)) ∧
      (∀ e, firstFailure (statements c) w.faults.tail.tail w.server = some (none, e) →
        (c = 12 ∨ c = 14 ∨ c = 19) ∧
        ∃ w1, dispatch c w = .halt (.panic e) w1 ∧ w1.logFile = w.logFile) ∧
      (firstFailure (statements c) w.faults.tail.tail w.server = none →
        (c = 15 → ∀ e, pending w.faults.tail.tail.tail = some e →
          ∃ w1, dispatch c w = .halt (.exit 1) w1 ∧
            w1.logFile =
              w.logFile ++ ["func insertRowUsingStruct failed (RowsAffected)- " ++ e]) ∧
        (c = 16 → ∀ t e, w.server.table = some t →
          getFailure (t.rows.filter (fun r => decide (r.telcode = some 852))) = some e →
          ∃ w1, dispatch c w = .halt (.exit 1) w1 ∧
            w1.logFile = w.logFile ++ ["func queryRow failed - " ++ e]) ∧
        (c = 17 → ∀ t e, w.server.table = some t →
          scanFailure t.rows w.faults.tail.tail.tail = some e →
          ∃ w1, dispatch c w = .halt (.exit 1) w1 ∧
            w1.logFile = w.logFile ++ ["func query failed (rows.Next) - " ++ e]) ∧
        ((c = 15 → pending w.faults.tail.tail.tail = none) →
          (c = 16 → ∀ t, w.server.table = some t →
            getFailure (t.rows.filter (fun r => decide (r.telcode = some 852))) = none) →
          (c = 17 → ∀ t, w.server.table = some t →
            scanFailure t.rows w.faults.tail.tail.tail = none) →
          ∃ w1, dispatch c w = .ok () w1))) ∧
    (∀ h w1, dispatch c w = .halt h w1 →
      (∃ e, h = .panic ("Failed to connect to the database: " ++ e) ∧
          w1.logFile = w.logFile ++ ["Failed to connect to the database: " ++ e]) ∨
      (∃ e, h = .panic ("Failed to ping the database: " ++ e) ∧
          w1.logFile = w.logFile ++ ["Failed to ping the database: " ++ e]) ∨
      (h = .exit 1 ∧ ∃ msg, w1.logFile = w.logFile ++ [msg] ∧
          (c ≠ 17 → ∃ rest, msg = "func " ++ opName c ++ " failed" ++ rest)) ∨
      ((c = 12 ∨ c = 14 ∨ c = 19) ∧ ∃ e, h = .panic e ∧ w1.logFile = w.logFile)) := by
  refine ⟨fun e h0 => connect_failure c hlo hhi w e h0,
    fun e h0 h1 => ping_failure c hlo hhi w e h0 h1, fun h0 h1 => ⟨?_, ?_, ?_⟩, ?_⟩
  · intro pre e hf
    obtain ⟨s, hmem⟩ := firstFailure_mem _ _ _ _ _ hf
    exact ⟨statement_failure c hlo hhi w h0 h1 (some pre) e hf,
      fun hc => (statements_named c hlo hhi s (some pre) hmem).1 pre rfl hc⟩
  · intro e hf
    obtain ⟨s, hmem⟩ := firstFailure_mem _ _ _ _ _ hf
    exact ⟨(statements_named c hlo hhi s none hmem).2 rfl,
      statement_failure c hlo hhi w h0 h1 none e hf⟩
  · intro hf
    refine ⟨?_, ?_, ?_, fun h15 h16 h17 => no_failure_returns c hlo hhi w h0 h1 hf h15 h16 h17⟩
    · rintro rfl e h3
      exact rowsAffected_failure w h0 h1 hf e h3
    · rintro rfl t e ht hg
      exact get_failure w h0 h1 hf t e ht hg
    · rintro rfl t e ht hscan
      exact scan_failure w h0 h1 hf t e ht hscan
  · intro h w1 hhalt
    have hs := dispatch_summary c hlo hhi w
    rw [hhalt] at hs
    rcases hs with h1 | h2 | ⟨hx, rest, hlog⟩ | ⟨hm, h4⟩
    · exact Or.inl h1
    · exact Or.inr (Or.inl h2)
    · refine Or.inr (Or.inr (Or.inl ⟨hx, _, hlog, fun hc => ⟨rest, ?_⟩⟩))
      rw [if_neg hc]
    · refine Or.inr (Or.inr (Or.inr ⟨?_, h4⟩))
      simpa [usesMustExec, or_assoc] using hm

/-- Witness for C10: in `getNumOfRows` (code 18) the `Get` fails. -/
theorem failure_is_logged_unless_mustExec_witness :
    (∃ w1, dispatch 18 (World.start "cs" emptyTable [none, none, some "permission denied"] []) =
        .halt (.exit 1) w1 ∧
      w1.logFile = (World.start "cs" emptyTable [none, none, some "permission denied"] []).logFile
        ++ ["func getNumOfRows failed - " ++ "permission denied"]) ∧
    ((18 : Nat) ≠ 17 →
      ∃ rest, "func getNumOfRows failed - " = "func " ++ opName 18 ++ " failed" ++ rest) :=
  ((failure_is_logged_unless_mustExec 18 (by decide) (by decide)
    (World.start "cs" emptyTable [none, none, some "permission denied"] [])).2.2.1
      (by simp [World.start, pending]) (by simp [World.start, pending])).1
    "func getNumOfRows failed - " "permission denied"
    (by simp [World.start, statements, firstFailure, pending])

end Sqlx
